import Mathlib

/-!
A shallow embedding of the clinical decision-support core (safety engine and
rules engine) of the Horalix prescribing platform, together with theorems
settling the specified properties.  Every definition follows the TypeScript
source; database lookups are modelled as pure lookups over explicit list-valued
tables passed in as arguments.
-/

namespace Horalix

/-! ### String helpers (ASCII case folding and substring search)

These model `String.prototype.toLowerCase` (for the ASCII strings used by the
engines) and `String.prototype.includes`. -/

/-- ASCII lower-casing of a single character, as JS `toLowerCase` acts on the
ASCII range. -/
def lcChar (c : Char) : Char :=
  if 65 ≤ c.toNat && c.toNat ≤ 90 then Char.ofNat (c.toNat + 32) else c

/-- Lower-case a string (ASCII). -/
def toLowerStr (s : String) : String :=
  ⟨s.data.map lcChar⟩

/-- Does `hay` start with `pat`? -/
def startsWithChars : List Char → List Char → Bool
  | [], _ => true
  | _ :: _, [] => false
  | p :: ps, h :: hs => p == h && startsWithChars ps hs

/-- Does `pat` occur contiguously inside `hay`?  Models `hay.includes(pat)`. -/
def subOccurs (pat : List Char) : List Char → Bool
  | [] => pat.isEmpty
  | c :: rest => startsWithChars pat (c :: rest) || subOccurs pat rest

/-- `jsIncludes hay pat` models the JS call `hay.includes(pat)`. -/
def jsIncludes (hay pat : String) : Bool :=
  subOccurs pat.data hay.data

/-- JS truthiness of an optional number: `undefined` and `0` are falsy. -/
def truthyOptNat (x : Option Nat) : Bool :=
  match x with
  | none => false
  | some n => n != 0

/-- JS `o || d` for an optional string: `undefined`/`null` and `""` are falsy. -/
def jsOrString (o : Option String) (d : String) : String :=
  match o with
  | none => d
  | some s => if s == "" then d else s

/-! ### Data model (mirroring the Prisma schema fields the engines read) -/

/-- `AlertSeverity` enum. -/
inductive AlertSeverity where
  | INFO
  | WARNING
  | CRITICAL
deriving DecidableEq, Repr

/-- `AlertType` enum. -/
inductive AlertType where
  | ALLERGY
  | DRUG_INTERACTION
  | CONTRAINDICATION
  | DUPLICATE_THERAPY
  | DOSE_RANGE
  | RENAL_ADJUSTMENT
  | HEPATIC_ADJUSTMENT
  | PREGNANCY_WARNING
  | LACTATION_WARNING
  | AGE_WARNING
deriving DecidableEq, Repr

/-- `AWaReCategory` enum. -/
inductive AWaReCategory where
  | ACCESS
  | WATCH
  | RESERVE
  | NOT_APPLICABLE
deriving DecidableEq, Repr

/-- The fields of a `Medication` record that the two engines read. -/
structure Medication where
  id : String
  genericName : String
  strength : String
  route : String
  therapeuticClass : String
  isAntibiotic : Bool
  isActive : Bool
  awaRe : AWaReCategory
deriving DecidableEq, Repr

/-- A patient allergy as exposed in `PatientContext` (severity is a string in
the source: `MILD` / `MODERATE` / `SEVERE` / `LIFE_THREATENING`). -/
structure Allergy where
  allergen : String
  severity : String
deriving DecidableEq, Repr

/-- An active patient condition. -/
structure PatientCondition where
  diagnosisCode : String
  diagnosisName : String
deriving DecidableEq, Repr

/-- A current medication entry of the patient context. -/
structure CurrentMedication where
  medicationId : String
  genericName : String
deriving DecidableEq, Repr

/-- `PatientContext` from `rules-engine.service.ts`.  Optional JS numbers
become `Option Nat`; optional booleans collapse to `Bool` (JS `undefined` and
`false` behave identically in every branch of the source). -/
structure PatientContext where
  id : String
  age : Nat
  weight : Option Nat
  gender : String
  isPregnant : Bool
  isLactating : Bool
  renalFunction : Option Nat
  hepaticFunction : Option String
  allergies : List Allergy
  conditions : List PatientCondition
  currentMedications : List CurrentMedication
deriving DecidableEq, Repr

/-- `ClinicalContext` (location and culture results are never read by the
embedded functions). -/
structure ClinicalContext where
  diagnosis : String
  diagnosisCode : Option String
  severity : Option String
deriving DecidableEq, Repr

/-- A drug-interaction record; `drug1Name`/`drug2Name` are the generic names of
the joined `drug1`/`drug2` relations the source `include`s. -/
structure DrugInteractionRec where
  drug1Id : String
  drug2Id : String
  severity : String
  description : String
  management : Option String
  drug1Name : String
  drug2Name : String
deriving DecidableEq, Repr

/-- The read-only formulary catalog: medication table and interaction table,
in database order. -/
structure Catalog where
  medications : List Medication
  interactions : List DrugInteractionRec
deriving DecidableEq, Repr

/-- One proposed prescription line: `{ medicationId, dose }`. -/
structure ProposedMedication where
  medicationId : String
  dose : String
deriving DecidableEq, Repr

/-- `SafetyAlert` (the source always populates the optional rationale and
recommendation fields, so they are plain strings here). -/
structure SafetyAlert where
  type : AlertType
  severity : AlertSeverity
  message : String
  clinicalRationale : String
  recommendation : String
  canOverride : Bool
deriving DecidableEq, Repr

/-- `SafetyCheckResult`. -/
structure SafetyCheckResult where
  safe : Bool
  alerts : List SafetyAlert
  criticalAlerts : List SafetyAlert
  requiresOverride : Bool
deriving DecidableEq, Repr

/-- `medication.findUnique({ where: { id } })`. -/
def findMedicationById (cat : Catalog) (id : String) : Option Medication :=
  cat.medications.find? (fun m => m.id == id)

/-! ### Safety engine: check 1 — allergies -/

/-- The direct-match condition of the allergy check: the medication generic
name contains the allergen or vice versa, case-insensitively. -/
def directMatchB (allergy : Allergy) (med : Medication) : Bool :=
  jsIncludes (toLowerStr med.genericName) (toLowerStr allergy.allergen) ||
    jsIncludes (toLowerStr allergy.allergen) (toLowerStr med.genericName)

/-- The alert pushed on a direct allergy match. -/
def directAllergyAlert (allergy : Allergy) (med : Medication) : SafetyAlert :=
  { type := AlertType.ALLERGY
    severity :=
      if allergy.severity == "LIFE_THREATENING" || allergy.severity == "SEVERE" then
        AlertSeverity.CRITICAL
      else
        AlertSeverity.WARNING
    message := "Patient has documented " ++ toLowerStr allergy.severity ++
      " allergy to " ++ allergy.allergen
    clinicalRationale := "Reaction: " ++ allergy.allergen ++
      ". This medication contains or is related to the allergen."
    recommendation := "Avoid " ++ med.genericName ++
      ". Consider alternative medication class."
    canOverride := allergy.severity != "LIFE_THREATENING" }

/-- The hard-coded cross-sensitivity table of `checkCrossSensitivity`. -/
def crossSensitivities : List (String × List String) :=
  [("penicillin", ["amoxicillin", "ampicillin", "cephalosporin", "ceftriaxone"]),
   ("sulfa", ["sulfamethoxazole", "trimethoprim"]),
   ("aspirin", ["ibuprofen", "naproxen", "diclofenac"])]

/-- `checkCrossSensitivity(allergen, drugName)`. -/
def checkCrossSensitivity (allergen drugName : String) : Bool :=
  crossSensitivities.any (fun e =>
    jsIncludes (toLowerStr allergen) e.1 &&
      e.2.any (fun r => jsIncludes (toLowerStr drugName) r))

/-- The alert pushed on a cross-sensitivity match. -/
def crossAllergyAlert (allergy : Allergy) (med : Medication) : SafetyAlert :=
  { type := AlertType.ALLERGY
    severity := AlertSeverity.WARNING
    message := "Possible cross-sensitivity: Patient allergic to " ++ allergy.allergen
    clinicalRationale := med.genericName ++ " may have cross-sensitivity with " ++
      allergy.allergen
    recommendation := "Monitor closely or consider alternative."
    canOverride := true }

/-- The alerts produced for one (medication, allergy) pair: the direct-match
alert, then the cross-sensitivity alert, each when its condition holds. -/
def allergyPairAlerts (allergy : Allergy) (med : Medication) : List SafetyAlert :=
  (if directMatchB allergy med then [directAllergyAlert allergy med] else []) ++
    (if checkCrossSensitivity allergy.allergen med.genericName then
      [crossAllergyAlert allergy med]
    else [])

/-- `checkAllergies(patientContext, medications)`; `medications` is the list of
resolved (possibly null) `Medication` records. -/
def checkAllergies (pc : PatientContext) (medications : List (Option Medication)) :
    List SafetyAlert :=
  if pc.allergies.isEmpty then []
  else
    medications.flatMap (fun om =>
      match om with
      | none => []
      | some med => pc.allergies.flatMap (fun a => allergyPairAlerts a med))

/-! ### Safety engine: check 2 — drug-drug interactions -/

/-- A Prisma equality filter on a scalar field: a filter value of `undefined`
(`none`) is ignored by Prisma and matches every row. -/
def prismaIdFilter (filter : Option String) (field : String) : Bool :=
  match filter with
  | none => true
  | some v => v == field

/-- `drugInteraction.findFirst` with the symmetric
`OR [{drug1Id: a, drug2Id: b}, {drug1Id: b, drug2Id: a}]` clause.  The filter
ids are `Option`s because the source passes `proposedMeds[i]?.id`, which is
`undefined` for an unresolved medication. -/
def findInteraction (tbl : List DrugInteractionRec) (a b : Option String) :
    Option DrugInteractionRec :=
  tbl.find? (fun r =>
    (prismaIdFilter a r.drug1Id && prismaIdFilter b r.drug2Id) ||
      (prismaIdFilter b r.drug1Id && prismaIdFilter a r.drug2Id))

/-- `mapInteractionSeverity`. -/
def mapInteractionSeverity (severity : String) : AlertSeverity :=
  if severity == "CONTRAINDICATED" || severity == "MAJOR" then AlertSeverity.CRITICAL
  else if severity == "MODERATE" then AlertSeverity.WARNING
  else AlertSeverity.INFO

/-- The alert pushed for an interaction between two proposed medications. -/
def pairInteractionAlert (r : DrugInteractionRec) : SafetyAlert :=
  { type := AlertType.DRUG_INTERACTION
    severity := mapInteractionSeverity r.severity
    message := "Interaction between " ++ r.drug1Name ++ " and " ++ r.drug2Name
    clinicalRationale := r.description
    recommendation := jsOrString r.management "Monitor closely"
    canOverride := r.severity != "CONTRAINDICATED" }

/-- The id filter the source passes for one (possibly null) proposed entry:
`proposedMeds[i]?.id`. -/
def idOf (om : Option Medication) : Option String :=
  om.map (fun m => m.id)

/-- The `i < j` double loop over proposed medications, in source order. -/
def proposedPairAlerts (tbl : List DrugInteractionRec) :
    List (Option Medication) → List SafetyAlert
  | [] => []
  | om :: rest =>
    rest.filterMap (fun om2 =>
      (findInteraction tbl (idOf om) (idOf om2)).map pairInteractionAlert) ++
      proposedPairAlerts tbl rest

/-- The alert pushed for an interaction with a current medication. -/
def currentInteractionAlert (cur : CurrentMedication) (r : DrugInteractionRec) :
    SafetyAlert :=
  { type := AlertType.DRUG_INTERACTION
    severity := mapInteractionSeverity r.severity
    message := "Interaction with current medication: " ++ cur.genericName
    clinicalRationale := r.description
    recommendation := jsOrString r.management "Consider alternative or adjust dosing"
    canOverride := r.severity != "CONTRAINDICATED" }

/-- The loop checking every proposed medication against every current
medication (null proposed entries are skipped by `if (!proposedMed) continue`). -/
def currentMedInteractionAlerts (tbl : List DrugInteractionRec)
    (proposedMeds : List (Option Medication)) (currentMeds : List CurrentMedication) :
    List SafetyAlert :=
  proposedMeds.flatMap (fun om =>
    match om with
    | none => []
    | some med =>
      currentMeds.filterMap (fun cur =>
        (findInteraction tbl (some med.id) (some cur.medicationId)).map
          (currentInteractionAlert cur)))

/-- `checkDrugInteractions(proposedMeds, currentMeds)`. -/
def checkDrugInteractions (tbl : List DrugInteractionRec)
    (proposedMeds : List (Option Medication)) (currentMeds : List CurrentMedication) :
    List SafetyAlert :=
  proposedPairAlerts tbl proposedMeds ++
    currentMedInteractionAlerts tbl proposedMeds currentMeds

/-! ### Safety engine: check 3 — contraindications -/

/-- The hard-coded condition-to-drug-keyword table, in object insertion order. -/
def contraindicationsTable : List (String × List String) :=
  [("peptic ulcer", ["aspirin", "ibuprofen", "naproxen", "diclofenac"]),
   ("heart failure", ["nsaid", "ibuprofen"]),
   ("asthma", ["aspirin", "beta-blocker"]),
   ("renal failure", ["metformin", "nsaid"])]

/-- The alert pushed for a contraindicated medication. -/
def contraindicationAlert (cond : PatientCondition) (med : Medication) : SafetyAlert :=
  { type := AlertType.CONTRAINDICATION
    severity := AlertSeverity.CRITICAL
    message := med.genericName ++ " is contraindicated in " ++ cond.diagnosisName
    clinicalRationale := "Patient has " ++ cond.diagnosisName ++
      " which is a contraindication for " ++ med.genericName
    recommendation := "Use alternative medication"
    canOverride := false }

/-- `checkContraindications(patientContext, medications)`. -/
def checkContraindications (pc : PatientContext)
    (medications : List (Option Medication)) : List SafetyAlert :=
  pc.conditions.flatMap (fun cond =>
    contraindicationsTable.flatMap (fun entry =>
      if jsIncludes (toLowerStr cond.diagnosisName) entry.1 then
        medications.filterMap (fun om =>
          match om with
          | none => none
          | some med =>
            if entry.2.any (fun drug => jsIncludes (toLowerStr med.genericName) drug) then
              some (contraindicationAlert cond med)
            else none)
      else []))

/-! ### Safety engine: check 4 — duplicate therapy -/

/-- The same-drug duplicate alert. -/
def sameDrugAlert (proposed : Medication) : SafetyAlert :=
  { type := AlertType.DUPLICATE_THERAPY
    severity := AlertSeverity.WARNING
    message := "Duplicate medication: " ++ proposed.genericName ++
      " is already prescribed"
    clinicalRationale := "Patient is already taking this medication"
    recommendation := "Review current medications before prescribing"
    canOverride := true }

/-- The same-drug loop of `checkDuplicateTherapy`. -/
def sameDrugAlerts (proposedMeds : List (Option Medication))
    (currentMeds : List CurrentMedication) : List SafetyAlert :=
  proposedMeds.flatMap (fun om =>
    match om with
    | none => []
    | some proposed =>
      currentMeds.filterMap (fun current =>
        if toLowerStr proposed.genericName == toLowerStr current.genericName ||
            proposed.id == current.medicationId then
          some (sameDrugAlert proposed)
        else none))

/-- An element of the combined list fed to `groupByTherapeuticClass`: proposed
medications keep their class; current medications are given
`therapeuticClass: null`. -/
structure GroupedMed where
  genericName : String
  therapeuticClass : Option String
deriving DecidableEq, Repr

/-- `med.therapeuticClass || 'Unknown'` (null and the empty string are falsy). -/
def classKey (m : GroupedMed) : String :=
  match m.therapeuticClass with
  | none => "Unknown"
  | some c => if c == "" then "Unknown" else c

/-- Insert one medication name into the insertion-ordered association list that
models the JS `groups` object. -/
def addToGroups : List (String × List String) → String → String →
    List (String × List String)
  | [], k, v => [(k, [v])]
  | (k', vs) :: rest, k, v =>
    if k' == k then (k', vs ++ [v]) :: rest else (k', vs) :: addToGroups rest k v

/-- `groupByTherapeuticClass(medications)`: entries appear in first-insertion
order of their class key, each holding the generic names in occurrence order. -/
def groupByTherapeuticClass (medications : List GroupedMed) :
    List (String × List String) :=
  medications.foldl (fun g m => addToGroups g (classKey m) m.genericName) []

/-- The per-class duplicate-therapy alert. -/
def classDupAlert (className : String) : SafetyAlert :=
  { type := AlertType.DUPLICATE_THERAPY
    severity := AlertSeverity.WARNING
    message := "Multiple medications from same class: " ++ className
    clinicalRationale := "Prescribing multiple " ++ className ++
      " may not be appropriate"
    recommendation := "Review therapeutic duplication"
    canOverride := true }

/-- The combined list `[...proposedMeds.filter(m => m), ...currentMeds.map(...)]`. -/
def combinedForGrouping (proposedMeds : List (Option Medication))
    (currentMeds : List CurrentMedication) : List GroupedMed :=
  proposedMeds.filterMap (fun om =>
    om.map (fun m => { genericName := m.genericName,
                       therapeuticClass := some m.therapeuticClass })) ++
    currentMeds.map (fun c => { genericName := c.genericName, therapeuticClass := none })

/-- The class-duplication loop over `Object.entries(therapeuticClasses)`. -/
def classDupAlerts (groups : List (String × List String)) : List SafetyAlert :=
  groups.filterMap (fun entry =>
    if entry.2.length > 1 then some (classDupAlert entry.1) else none)

/-- `checkDuplicateTherapy(proposedMeds, currentMeds)`. -/
def checkDuplicateTherapy (proposedMeds : List (Option Medication))
    (currentMeds : List CurrentMedication) : List SafetyAlert :=
  sameDrugAlerts proposedMeds currentMeds ++
    classDupAlerts (groupByTherapeuticClass (combinedForGrouping proposedMeds currentMeds))

/-! ### Safety engine: check 5 — dose range -/

/-- Numeric value of a digit string. -/
def digitsToNat (l : List Char) : Nat :=
  l.foldl (fun n c => 10 * n + (c.toNat - 48)) 0

/-- The character `.` (written by code point to keep the file ASCII-plain). -/
def dotChar : Char := Char.ofNat 46

/-- Find the first maximal digit run of the string, returning it with the
remaining characters; models where the regex `(\d+\.?\d*)` starts matching. -/
def findNumMatch : List Char → Option (List Char × List Char)
  | [] => none
  | c :: rest =>
    if c.isDigit then some (List.span (fun ch => ch.isDigit) (c :: rest))
    else findNumMatch rest

/-- `dose.match(/(\d+\.?\d*)/)` followed by `parseFloat`, kept exact as the
integer part paired with the value of the fractional digit run (the only use
is a comparison with 5000, decided exactly from this pair). -/
def parseLeadingNumber (s : String) : Option (Nat × Nat) :=
  match findNumMatch s.data with
  | none => none
  | some (ds, rest) =>
    if rest.head? == some dotChar then
      let fs := (List.span (fun ch => ch.isDigit) rest.tail).1
      some (digitsToNat ds, digitsToNat fs)
    else
      some (digitsToNat ds, 0)

/-- The parsed decimal `ip + fp / 10^k` exceeds 5000 exactly when the integer
part exceeds 5000, or equals it with a nonzero fractional part. -/
def doseExceeds5000 (ip fp : Nat) : Bool :=
  ip > 5000 || (ip == 5000 && fp > 0)

/-- The pediatric missing-weight alert. -/
def pediatricWeightAlert : SafetyAlert :=
  { type := AlertType.DOSE_RANGE
    severity := AlertSeverity.WARNING
    message := "Pediatric patient: weight required for dose calculation"
    clinicalRationale := "Weight-based dosing is recommended for pediatric patients"
    recommendation := "Enter patient weight for accurate dosing"
    canOverride := true }

/-- The unusually-high-dose alert. -/
def highDoseAlert (pm : ProposedMedication) : SafetyAlert :=
  { type := AlertType.DOSE_RANGE
    severity := AlertSeverity.CRITICAL
    message := "Dose appears unusually high: " ++ pm.dose
    clinicalRationale := "Dose exceeds typical maximum"
    recommendation := "Verify dose calculation"
    canOverride := true }

/-- `checkDoseRanges(patientContext, proposedMedications, medications)`; the
source walks both arrays by a shared index, modelled by the zipped list. -/
def checkDoseRanges (pc : PatientContext)
    (pairs : List (ProposedMedication × Option Medication)) : List SafetyAlert :=
  pairs.flatMap (fun pair =>
    match pair.2 with
    | none => []
    | some _ =>
      match parseLeadingNumber pair.1.dose with
      | none => []
      | some dv =>
        (if pc.age < 18 && !truthyOptNat pc.weight then [pediatricWeightAlert] else []) ++
          (if doseExceeds5000 dv.1 dv.2 then [highDoseAlert pair.1] else []))

/-! ### Safety engine: check 6 — organ function -/

/-- Renally-excreted drug keyword list. -/
def renallyExcreted : List String := ["metformin", "gabapentin", "enoxaparin", "digoxin"]

/-- Hepatically-metabolized drug keyword list. -/
def hepaticMetabolized : List String := ["warfarin", "phenytoin", "carbamazepine"]

/-- The renal-adjustment alert for a matched medication at a given eGFR. -/
def renalAlert (egfr : Nat) (med : Medication) : SafetyAlert :=
  { type := AlertType.RENAL_ADJUSTMENT
    severity := if egfr < 30 then AlertSeverity.CRITICAL else AlertSeverity.WARNING
    message := "Renal dose adjustment required for " ++ med.genericName
    clinicalRationale := "Patient eGFR: " ++ toString egfr ++ " mL/min. " ++
      med.genericName ++ " requires dose adjustment in renal impairment."
    recommendation :=
      if egfr < 30 then "Avoid or use significantly reduced dose"
      else "Reduce dose based on renal function"
    canOverride := !(egfr < 30) }

/-- The hepatic-adjustment alert for a matched medication. -/
def hepaticAlert (hepaticFunction : String) (med : Medication) : SafetyAlert :=
  { type := AlertType.HEPATIC_ADJUSTMENT
    severity := AlertSeverity.WARNING
    message := "Hepatic dose adjustment may be needed for " ++ med.genericName
    clinicalRationale := "Patient has " ++ toLowerStr hepaticFunction ++
      " hepatic impairment."
    recommendation := "Monitor closely and adjust dose as needed"
    canOverride := true }

/-- `checkOrganFunction(patientContext, medications)`.  The renal guard is the
JS-truthy `renalFunction && renalFunction < 60`, so an eGFR of 0 skips the
block. -/
def checkOrganFunction (pc : PatientContext)
    (medications : List (Option Medication)) : List SafetyAlert :=
  (if truthyOptNat pc.renalFunction && pc.renalFunction.getD 0 < 60 then
    medications.filterMap (fun om =>
      match om with
      | none => none
      | some med =>
        if renallyExcreted.any (fun drug => jsIncludes (toLowerStr med.genericName) drug) then
          some (renalAlert (pc.renalFunction.getD 0) med)
        else none)
  else []) ++
    (match pc.hepaticFunction with
     | none => []
     | some hf =>
       if hf == "Moderate" || hf == "Severe" then
         medications.filterMap (fun om =>
           match om with
           | none => none
           | some med =>
             if hepaticMetabolized.any
                 (fun drug => jsIncludes (toLowerStr med.genericName) drug) then
               some (hepaticAlert hf med)
             else none)
       else [])

/-! ### Safety engine: check 7 — pregnancy and lactation -/

/-- Pregnancy-contraindicated keyword list. -/
def pregnancyContraindicated : List String :=
  ["warfarin", "methotrexate", "isotretinoin", "finasteride"]

/-- Pregnancy-caution keyword list. -/
def pregnancyCaution : List String := ["ace inhibitor", "arb", "nsaid"]

/-- Lactation-caution keyword list. -/
def lactationCaution : List String := ["codeine", "aspirin", "lithium"]

/-- Pregnancy contraindication alert. -/
def pregnancyContraAlert (med : Medication) : SafetyAlert :=
  { type := AlertType.PREGNANCY_WARNING
    severity := AlertSeverity.CRITICAL
    message := med.genericName ++ " is contraindicated in pregnancy"
    clinicalRationale := "Known teratogenic effects or fetal harm"
    recommendation := "Use alternative medication safe for pregnancy"
    canOverride := false }

/-- Pregnancy caution alert. -/
def pregnancyCautionAlert (med : Medication) : SafetyAlert :=
  { type := AlertType.PREGNANCY_WARNING
    severity := AlertSeverity.WARNING
    message := "Use " ++ med.genericName ++ " with caution in pregnancy"
    clinicalRationale := "Potential risks to fetus"
    recommendation := "Consider safer alternatives or use only if benefit outweighs risk"
    canOverride := true }

/-- Lactation caution alert. -/
def lactationAlert (med : Medication) : SafetyAlert :=
  { type := AlertType.LACTATION_WARNING
    severity := AlertSeverity.WARNING
    message := med.genericName ++ " may not be safe during breastfeeding"
    clinicalRationale := "Drug passes into breast milk"
    recommendation := "Consider alternative or monitor infant closely"
    canOverride := true }

/-- `checkPregnancyLactation(patientContext, medications)`. -/
def checkPregnancyLactation (pc : PatientContext)
    (medications : List (Option Medication)) : List SafetyAlert :=
  (if pc.isPregnant then
    medications.filterMap (fun om =>
      match om with
      | none => none
      | some med =>
        if pregnancyContraindicated.any
            (fun drug => jsIncludes (toLowerStr med.genericName) drug) then
          some (pregnancyContraAlert med)
        else if pregnancyCaution.any
            (fun drug => jsIncludes (toLowerStr med.genericName) drug) then
          some (pregnancyCautionAlert med)
        else none)
  else []) ++
    (if pc.isLactating then
      medications.filterMap (fun om =>
        match om with
        | none => none
        | some med =>
          if lactationCaution.any (fun drug => jsIncludes (toLowerStr med.genericName) drug) then
            some (lactationAlert med)
          else none)
    else [])

/-! ### Safety engine: check 8 — age-specific warnings -/

/-- Pediatric-contraindicated keyword list. -/
def pediatricContraindicated : List String := ["tetracycline", "fluoroquinolone", "aspirin"]

/-- Geriatric-caution keyword list. -/
def geriatricCaution : List String := ["benzodiazepine", "anticholinergic", "opioid"]

/-- The pediatric age alert; severity escalates to Critical (non-overridable)
for aspirin under age 12 (Reye\x27s-syndrome special case). -/
def pediatricAgeAlert (pc : PatientContext) (med : Medication) : SafetyAlert :=
  if jsIncludes (toLowerStr med.genericName) "aspirin" && pc.age < 12 then
    { type := AlertType.AGE_WARNING
      severity := AlertSeverity.CRITICAL
      message := med.genericName ++ " not recommended for age " ++ toString pc.age
      clinicalRationale := "Risk of Reye\x27s syndrome in children"
      recommendation := "Use age-appropriate alternative"
      canOverride := false }
  else
    { type := AlertType.AGE_WARNING
      severity := AlertSeverity.WARNING
      message := med.genericName ++ " not recommended for age " ++ toString pc.age
      clinicalRationale := "Generally not recommended in pediatric patients"
      recommendation := "Use age-appropriate alternative"
      canOverride := true }

/-- The geriatric caution alert. -/
def geriatricAlert (med : Medication) : SafetyAlert :=
  { type := AlertType.AGE_WARNING
    severity := AlertSeverity.INFO
    message := "Use " ++ med.genericName ++ " with caution in elderly patients"
    clinicalRationale := "Increased risk of falls, cognitive impairment, or adverse effects"
    recommendation := "Start with low dose and monitor closely"
    canOverride := true }

/-- `checkAgeSpecific(patientContext, medications)`. -/
def checkAgeSpecific (pc : PatientContext)
    (medications : List (Option Medication)) : List SafetyAlert :=
  (if pc.age < 18 then
    medications.filterMap (fun om =>
      match om with
      | none => none
      | some med =>
        if pediatricContraindicated.any
            (fun drug => jsIncludes (toLowerStr med.genericName) drug) then
          some (pediatricAgeAlert pc med)
        else none)
  else []) ++
    (if pc.age ≥ 65 then
      medications.filterMap (fun om =>
        match om with
        | none => none
        | some med =>
          if geriatricCaution.any (fun drug => jsIncludes (toLowerStr med.genericName) drug) then
            some (geriatricAlert med)
          else none)
    else [])

/-! ### Safety engine: aggregation -/

/-- The resolved medication list `proposedMedications.map(pm => findUnique(pm.medicationId))`. -/
def resolveProposed (cat : Catalog) (proposed : List ProposedMedication) :
    List (Option Medication) :=
  proposed.map (fun pm => findMedicationById cat pm.medicationId)

/-- `performSafetyCheck(patientContext, proposedMedications)`: runs the eight
checks in source order, concatenates their alerts, and aggregates. -/
def performSafetyCheck (pc : PatientContext) (proposed : List ProposedMedication)
    (cat : Catalog) : SafetyCheckResult :=
  let medications := resolveProposed cat proposed
  let alerts :=
    checkAllergies pc medications ++
    checkDrugInteractions cat.interactions medications pc.currentMedications ++
    checkContraindications pc medications ++
    checkDuplicateTherapy medications pc.currentMedications ++
    checkDoseRanges pc (proposed.zip medications) ++
    checkOrganFunction pc medications ++
    checkPregnancyLactation pc medications ++
    checkAgeSpecific pc medications
  let criticalAlerts := alerts.filter (fun a => a.severity == AlertSeverity.CRITICAL)
  { safe := criticalAlerts.length == 0
    alerts := alerts
    criticalAlerts := criticalAlerts
    requiresOverride := criticalAlerts.any (fun a => !a.canOverride) }

/-! ### Rules engine: data model -/

/-- The `firstLineChoice` JSON blob: the source reads
`firstLineChoices.drugId || firstLineChoices.medications?.[0]`. -/
structure FirstLineChoice where
  drugId : Option String
  medications : Option (List String)
deriving DecidableEq, Repr

/-- One entry of the `alternatives` JSON array. -/
structure AlternativeChoice where
  drugId : String
  reason : Option String
deriving DecidableEq, Repr

/-- The fields of a `ClinicalRule` row that the engine reads; `updatedAt` is a
timestamp modelled as a natural number. -/
structure ClinicalRule where
  name : String
  isActive : Bool
  diagnosisCodes : List String
  updatedAt : Nat
  firstLineChoice : FirstLineChoice
  alternatives : List AlternativeChoice
  guidelineSource : Option String
  evidenceLevel : Option String
deriving DecidableEq, Repr

/-- `DrugRecommendation`. -/
structure DrugRecommendation where
  medication : Medication
  dose : String
  frequency : String
  route : String
  duration : String
  rationale : String
  isFirstLine : Bool
  alternativeReason : Option String
  confidence : Nat
  guidelineSource : Option String
  evidenceLevel : Option String
deriving DecidableEq, Repr

/-- `RecommendationResult`. -/
structure RecommendationResult where
  primary : DrugRecommendation
  alternatives : List DrugRecommendation
  rulesApplied : List String
  warnings : List String
deriving DecidableEq, Repr

/-- The errors the rules engine throws: `Error('Primary medication not found')`
on the rule path and `Error('No suitable medications found')` (the
`NoSuitableMedicationError` of the spec) on the fallback path. -/
inductive RulesEngineError where
  | primaryMedicationNotFound
  | noSuitableMedication
deriving DecidableEq, Repr

/-- The outcome of `calculateDose`. -/
structure DoseResult where
  dose : String
  frequency : String
  route : String
  duration : String
deriving DecidableEq, Repr

/-! ### Rules engine: functions -/

/-- Insert a rule into a list sorted by decreasing `updatedAt`. -/
def insertByUpdatedAt (r : ClinicalRule) : List ClinicalRule → List ClinicalRule
  | [] => [r]
  | x :: xs =>
    if r.updatedAt > x.updatedAt then r :: x :: xs else x :: insertByUpdatedAt r xs

/-- Deterministic sort by decreasing `updatedAt`, modelling the database
`orderBy: { updatedAt: 'desc' }`. -/
def sortByUpdatedAtDesc : List ClinicalRule → List ClinicalRule
  | [] => []
  | x :: xs => insertByUpdatedAt x (sortByUpdatedAtDesc xs)

/-- `findMatchingRules(clinicalContext)`: no diagnosis code (or an empty one,
which is JS-falsy) matches nothing; otherwise the active rules whose
`diagnosisCodes` contain the code, most recently updated first. -/
def findMatchingRules (cc : ClinicalContext) (rules : List ClinicalRule) :
    List ClinicalRule :=
  match cc.diagnosisCode with
  | none => []
  | some code =>
    if code == "" then []
    else
      sortByUpdatedAtDesc
        (rules.filter (fun r => r.isActive && r.diagnosisCodes.contains code))

/-- `calculateDose(medication, patientContext, clinicalContext)`: default
BID/7 days, then the pediatric, renal and severity adjustments in order; the
renal and pediatric guards are JS-truthy, so a value of 0 is treated as
absent. -/
def calculateDose (medication : Medication) (pc : PatientContext)
    (cc : ClinicalContext) : DoseResult :=
  let dose := medication.strength
  let frequency := "BID"
  let route := medication.route
  let duration := "7 days"
  let dose :=
    if pc.age < 18 && truthyOptNat pc.weight then
      "Based on " ++ toString (pc.weight.getD 0) ++ "kg"
    else dose
  let frequency :=
    if truthyOptNat pc.renalFunction && pc.renalFunction.getD 0 < 50 then "QD"
    else frequency
  let frequency :=
    if cc.severity == some "severe" then
      (if medication.route == "IV" then "Q6H" else "TID")
    else frequency
  let duration := if cc.severity == some "severe" then "10-14 days" else duration
  { dose := dose, frequency := frequency, route := route, duration := duration }

/-- The sentence `generateRationale` appends when the patient is pregnant. -/
def pregnancySafetySentence : String :=
  "Considered safe for use in pregnancy (Category B)."

/-- Join rationale clauses with single spaces, as `parts.join(' ')`. -/
def joinSpace : List String → String
  | [] => ""
  | [s] => s
  | s :: rest => s ++ " " ++ joinSpace rest

/-- The clause list built by `generateRationale`. -/
def rationaleParts (medication : Medication) (rule : ClinicalRule)
    (pc : PatientContext) (cc : ClinicalContext) : List String :=
  (if medication.isAntibiotic then
    (if medication.awaRe == AWaReCategory.ACCESS then
      [medication.genericName ++
        " is an Access antibiotic with low resistance risk and broad availability."]
    else if medication.awaRe == AWaReCategory.WATCH then
      [medication.genericName ++
        " is a Watch antibiotic. It has higher resistance potential and should be used when Access antibiotics are unsuitable."]
    else [])
  else []) ++
  ["Recommended as first-line treatment for " ++ cc.diagnosis ++ " based on " ++
    jsOrString rule.guidelineSource "clinical guidelines" ++ "."] ++
  (if truthyOptNat pc.renalFunction && pc.renalFunction.getD 0 < 60 then
    ["Dosing adjusted for renal function (eGFR: " ++
      toString (pc.renalFunction.getD 0) ++ ")."]
  else []) ++
  (if pc.age < 18 then ["Pediatric dosing applied based on weight and age."] else []) ++
  (if pc.isPregnant then [pregnancySafetySentence] else [])

/-- `generateRationale(medication, rule, patientContext, clinicalContext)`. -/
def generateRationale (medication : Medication) (rule : ClinicalRule)
    (pc : PatientContext) (cc : ClinicalContext) : String :=
  joinSpace (rationaleParts medication rule pc cc)

/-- `firstLineChoices.drugId || firstLineChoices.medications?.[0]` (an empty
string is falsy). -/
def primaryMedIdOf (fl : FirstLineChoice) : Option String :=
  match fl.drugId with
  | some s => if s == "" then fl.medications.bind List.head? else some s
  | none => fl.medications.bind List.head?

/-- The active Access antibiotics of the catalog, in table order, limited to 5
(`findMany({ where: { isAntibiotic, awaRe: ACCESS, isActive }, take: 5 })`). -/
def accessAntibiotics (cat : Catalog) : List Medication :=
  (cat.medications.filter (fun m =>
    m.isAntibiotic && m.awaRe == AWaReCategory.ACCESS && m.isActive)).take 5

/-- The mandatory fallback warning. -/
def fallbackWarning : String :=
  "No specific clinical rule found. Recommendation based on general principles. Consider consulting infectious disease specialist."

/-- `getGeneralRecommendations(patientContext, clinicalContext)`: the fallback
path over Access antibiotics. -/
def getGeneralRecommendations (pc : PatientContext) (cc : ClinicalContext)
    (cat : Catalog) : Except RulesEngineError RecommendationResult :=
  match accessAntibiotics cat with
  | [] => Except.error RulesEngineError.noSuitableMedication
  | primaryMed :: rest =>
    let primaryDose := calculateDose primaryMed pc cc
    let primary : DrugRecommendation :=
      { medication := primaryMed
        dose := primaryDose.dose
        frequency := primaryDose.frequency
        route := primaryDose.route
        duration := primaryDose.duration
        rationale := primaryMed.genericName ++
          " is an Access antibiotic suitable for empiric therapy. Consider adjusting based on culture results."
        isFirstLine := true
        alternativeReason := none
        confidence := 60
        guidelineSource := some "WHO AWaRe Classification"
        evidenceLevel := none }
    let alternatives := (rest.take 2).map (fun med =>
      let d := calculateDose med pc cc
      { medication := med
        dose := d.dose
        frequency := d.frequency
        route := d.route
        duration := d.duration
        rationale := "Alternative Access antibiotic option"
        isFirstLine := false
        alternativeReason := none
        confidence := 50
        guidelineSource := none
        evidenceLevel := none : DrugRecommendation })
    Except.ok
      { primary := primary
        alternatives := alternatives
        rulesApplied := ["General antibiotic stewardship principles"]
        warnings := [fallbackWarning] }

/-- `getRecommendations(patientContext, clinicalContext)`. -/
def getRecommendations (pc : PatientContext) (cc : ClinicalContext)
    (rules : List ClinicalRule) (cat : Catalog) :
    Except RulesEngineError RecommendationResult :=
  match findMatchingRules cc rules with
  | [] => getGeneralRecommendations pc cc cat
  | bestRule :: _ =>
    match (primaryMedIdOf bestRule.firstLineChoice).bind (findMedicationById cat) with
    | none => Except.error RulesEngineError.primaryMedicationNotFound
    | some primaryMed =>
      let primaryDose := calculateDose primaryMed pc cc
      let primary : DrugRecommendation :=
        { medication := primaryMed
          dose := primaryDose.dose
          frequency := primaryDose.frequency
          route := primaryDose.route
          duration := primaryDose.duration
          rationale := generateRationale primaryMed bestRule pc cc
          isFirstLine := true
          alternativeReason := none
          confidence := 90
          guidelineSource := some (jsOrString bestRule.guidelineSource "WHO AWaRe")
          evidenceLevel := bestRule.evidenceLevel }
      let alternatives := bestRule.alternatives.filterMap (fun alt =>
        (findMedicationById cat alt.drugId).map (fun altMed =>
          let d := calculateDose altMed pc cc
          { medication := altMed
            dose := d.dose
            frequency := d.frequency
            route := d.route
            duration := d.duration
            rationale := jsOrString alt.reason "Alternative treatment option"
            isFirstLine := false
            alternativeReason := alt.reason
            confidence := 70
            guidelineSource := bestRule.guidelineSource
            evidenceLevel := none : DrugRecommendation }))
      let warnings :=
        if primaryMed.awaRe == AWaReCategory.WATCH then
          ["This is a Watch category antibiotic. Consider Access alternatives if appropriate."]
        else if primaryMed.awaRe == AWaReCategory.RESERVE then
          ["This is a Reserve category antibiotic. Use only when other options have failed or in critical situations."]
        else []
      Except.ok
        { primary := primary
          alternatives := alternatives
          rulesApplied := ["Clinical Rule: " ++ bestRule.name]
          warnings := warnings }

/-! ### Concrete fixtures used by witnesses and counterexamples -/

/-- Amoxicillin, as seeded in the formulary. -/
def amoxicillin : Medication :=
  { id := "med-amox", genericName := "Amoxicillin", strength := "500mg",
    route := "oral", therapeuticClass := "Beta-lactam antibiotics",
    isAntibiotic := true, isActive := true, awaRe := AWaReCategory.ACCESS }

/-- Warfarin: pregnancy-contraindicated in the safety engine keyword list. -/
def warfarin : Medication :=
  { id := "med-warf", genericName := "Warfarin", strength := "5mg",
    route := "oral", therapeuticClass := "Anticoagulants",
    isAntibiotic := false, isActive := true, awaRe := AWaReCategory.NOT_APPLICABLE }

/-- Metformin. -/
def metformin : Medication :=
  { id := "med-metf", genericName := "Metformin", strength := "850mg",
    route := "oral", therapeuticClass := "Biguanides",
    isAntibiotic := false, isActive := true, awaRe := AWaReCategory.NOT_APPLICABLE }

/-- Ibuprofen. -/
def ibuprofen : Medication :=
  { id := "med-ibup", genericName := "Ibuprofen", strength := "400mg",
    route := "oral", therapeuticClass := "NSAIDs",
    isAntibiotic := false, isActive := true, awaRe := AWaReCategory.NOT_APPLICABLE }

/-- A healthy adult patient context with a severe penicillin allergy. -/
def patientPenAllergy : PatientContext :=
  { id := "pat-1", age := 30, weight := some 80, gender := "MALE",
    isPregnant := false, isLactating := false, renalFunction := some 90,
    hepaticFunction := some "Normal",
    allergies := [{ allergen := "Penicillin", severity := "SEVERE" }],
    conditions := [], currentMedications := [] }

/-- A healthy adult patient context with no allergies or conditions. -/
def patientPlain : PatientContext :=
  { id := "pat-2", age := 30, weight := some 80, gender := "FEMALE",
    isPregnant := false, isLactating := false, renalFunction := some 90,
    hepaticFunction := some "Normal",
    allergies := [], conditions := [], currentMedications := [] }

/-- A catalog holding only amoxicillin. -/
def catalogAmox : Catalog := { medications := [amoxicillin], interactions := [] }

/-- A penicillin medication record, used to exercise the direct match. -/
def penicillinMed : Medication :=
  { id := "med-pen", genericName := "Penicillin", strength := "250mg",
    route := "oral", therapeuticClass := "Beta-lactam antibiotics",
    isAntibiotic := true, isActive := true, awaRe := AWaReCategory.ACCESS }

/-- A clinical context with no code and no severity. -/
def ccPlain : ClinicalContext :=
  { diagnosis := "Infection", diagnosisCode := none, severity := none }

/-- A severe clinical context. -/
def ccSevere : ClinicalContext :=
  { diagnosis := "Sepsis", diagnosisCode := none, severity := some "severe" }

/-- An IV medication. -/
def ceftriaxoneIV : Medication :=
  { id := "med-ceft", genericName := "Ceftriaxone", strength := "1g",
    route := "IV", therapeuticClass := "Third generation cephalosporins",
    isAntibiotic := true, isActive := true, awaRe := AWaReCategory.WATCH }

/-- A pregnant adult patient context. -/
def patientPregnant : PatientContext :=
  { id := "pat-3", age := 28, weight := some 65, gender := "FEMALE",
    isPregnant := true, isLactating := false, renalFunction := some 95,
    hepaticFunction := some "Normal",
    allergies := [], conditions := [], currentMedications := [] }

/-- An active clinical rule whose first-line choice is warfarin. -/
def ruleWarfarin : ClinicalRule :=
  { name := "VTE prophylaxis", isActive := true, diagnosisCodes := ["I26"],
    updatedAt := 10,
    firstLineChoice := { drugId := some "med-warf", medications := none },
    alternatives := [], guidelineSource := none, evidenceLevel := some "B" }

/-- A clinical context carrying the diagnosis code of `ruleWarfarin`. -/
def ccWarfarin : ClinicalContext :=
  { diagnosis := "Pulmonary embolism", diagnosisCode := some "I26", severity := none }

/-- A catalog holding only warfarin. -/
def catalogWarfarin : Catalog := { medications := [warfarin], interactions := [] }

/-- An inactive amoxicillin record. -/
def amoxInactive : Medication :=
  { id := "med-inact", genericName := "Amoxicillin", strength := "500mg",
    route := "oral", therapeuticClass := "Beta-lactam antibiotics",
    isAntibiotic := true, isActive := false, awaRe := AWaReCategory.ACCESS }

/-- An active rule whose first-line medication is the inactive record. -/
def ruleInactiveMed : ClinicalRule :=
  { name := "Stale rule", isActive := true, diagnosisCodes := ["A00"],
    updatedAt := 5,
    firstLineChoice := { drugId := some "med-inact", medications := none },
    alternatives := [], guidelineSource := none, evidenceLevel := none }

/-- The clinical context matching `ruleInactiveMed`. -/
def ccA00 : ClinicalContext :=
  { diagnosis := "Cholera", diagnosisCode := some "A00", severity := none }

/-- A catalog holding only the inactive record. -/
def catalogInactive : Catalog := { medications := [amoxInactive], interactions := [] }

/-- A major interaction between amoxicillin and warfarin. -/
def interactionAmoxWarf : DrugInteractionRec :=
  { drug1Id := "med-amox", drug2Id := "med-warf", severity := "MAJOR",
    description := "Increased bleeding risk", management := some "Monitor INR",
    drug1Name := "Amoxicillin", drug2Name := "Warfarin" }

/-- A catalog with amoxicillin and warfarin and their interaction record. -/
def catalogInteraction : Catalog :=
  { medications := [amoxicillin, warfarin], interactions := [interactionAmoxWarf] }

/-- Length of the value list stored under key `k` (0 when absent). -/
def entryLen (g : List (String × List String)) (k : String) : Nat :=
  match g.find? (fun e => e.1 == k) with
  | none => 0
  | some e => e.2.length

/-- A catalog holding warfarin and metformin. -/
def catalogTwo : Catalog := { medications := [warfarin, metformin], interactions := [] }

/-- The `i < j` index pairs of a list, in the order the double loop of
`checkDrugInteractions` visits them. -/
def pairsOf {α : Type} : List α → List (α × α)
  | [] => []
  | x :: xs => xs.map (fun y => (x, y)) ++ pairsOf xs

/-- The pair of (possibly null) medications handed to each interaction lookup
of the `i < j` double loop, in visit order: the performed lookups. -/
def proposedPairQueries (meds : List (Option Medication)) :
    List (Option Medication × Option Medication) :=
  pairsOf meds

/-- The proposed amoxicillin line item. -/
def pmAmox : ProposedMedication := { medicationId := "med-amox", dose := "500mg" }

/-- The proposed warfarin line item. -/
def pmWarf : ProposedMedication := { medicationId := "med-warf", dose := "5mg" }

/-! ### C1 — aggregation invariants of `performSafetyCheck` -/

/-- C1: for every patient context, proposed medication list and catalog, the
result of `performSafetyCheck` satisfies: `criticalAlerts` is the sublist of
`alerts` with severity Critical; `requiresOverride` holds iff some critical
alert has `canOverride = false`; `safe` holds iff there is no critical alert;
and any Critical, non-overridable alert forces `requiresOverride`. -/
theorem C1_aggregation_invariants (pc : PatientContext)
    (proposed : List ProposedMedication) (cat : Catalog) :
    (performSafetyCheck pc proposed cat).criticalAlerts
        = (performSafetyCheck pc proposed cat).alerts.filter
            (fun a => a.severity == AlertSeverity.CRITICAL) ∧
      ((performSafetyCheck pc proposed cat).requiresOverride = true ↔
        ∃ a ∈ (performSafetyCheck pc proposed cat).criticalAlerts,
          a.canOverride = false) ∧
      ((performSafetyCheck pc proposed cat).safe = true ↔
        (performSafetyCheck pc proposed cat).criticalAlerts = []) ∧
      (∀ a ∈ (performSafetyCheck pc proposed cat).alerts,
        a.severity = AlertSeverity.CRITICAL → a.canOverride = false →
          (performSafetyCheck pc proposed cat).requiresOverride = true) := by
  refine ⟨rfl, ?_, ?_, ?_⟩
  · simp only [performSafetyCheck, List.any_eq_true, Bool.not_eq_true']
  · simp only [performSafetyCheck, Nat.beq_eq_true_eq, List.length_eq_zero]
  · intro a ha hsev hov
    simp only [performSafetyCheck, List.any_eq_true, Bool.not_eq_true']
    exact ⟨a, List.mem_filter.mpr ⟨ha, by simp [hsev]⟩, hov⟩

/-- C1 witness: the invariants instantiated at a concrete safety check. -/
theorem C1_aggregation_invariants_witness :
    (performSafetyCheck patientPenAllergy [⟨"med-amox", "500mg"⟩] catalogAmox).criticalAlerts
        = (performSafetyCheck patientPenAllergy [⟨"med-amox", "500mg"⟩]
            catalogAmox).alerts.filter
            (fun a => a.severity == AlertSeverity.CRITICAL) ∧
      ((performSafetyCheck patientPenAllergy [⟨"med-amox", "500mg"⟩]
            catalogAmox).requiresOverride = true ↔
        ∃ a ∈ (performSafetyCheck patientPenAllergy [⟨"med-amox", "500mg"⟩]
            catalogAmox).criticalAlerts, a.canOverride = false) ∧
      ((performSafetyCheck patientPenAllergy [⟨"med-amox", "500mg"⟩]
            catalogAmox).safe = true ↔
        (performSafetyCheck patientPenAllergy [⟨"med-amox", "500mg"⟩]
            catalogAmox).criticalAlerts = []) ∧
      (∀ a ∈ (performSafetyCheck patientPenAllergy [⟨"med-amox", "500mg"⟩]
            catalogAmox).alerts,
        a.severity = AlertSeverity.CRITICAL → a.canOverride = false →
          (performSafetyCheck patientPenAllergy [⟨"med-amox", "500mg"⟩]
            catalogAmox).requiresOverride = true) :=
  C1_aggregation_invariants patientPenAllergy [⟨"med-amox", "500mg"⟩] catalogAmox

/-! ### C2 — penicillin/amoxicillin produces one alert, not two -/

/-- C2 counterexample: for a patient with a documented Severe "Penicillin"
allergy and proposed "Amoxicillin", `performSafetyCheck` does not return two
distinct allergy alerts — the full alert list contains no two distinct alerts
of type ALLERGY (only the single cross-sensitivity alert is emitted, because
neither generic name contains the other as a substring). -/
theorem C2_counterexample :
    ¬ (∃ a ∈ (performSafetyCheck patientPenAllergy [⟨"med-amox", "500mg"⟩]
          catalogAmox).alerts,
        ∃ b ∈ (performSafetyCheck patientPenAllergy [⟨"med-amox", "500mg"⟩]
          catalogAmox).alerts,
        a ≠ b ∧ a.type = AlertType.ALLERGY ∧ b.type = AlertType.ALLERGY) := by
  decide

/-- C2 (amended): for every patient allergic to "Penicillin" (any severity)
and proposed medication with generic name "Amoxicillin", the allergy check
produces exactly one alert for that pair — the cross-sensitivity alert,
Warning and overridable — and that alert occurs in the output of
`checkAllergies`; no direct-match alert is emitted for the pair. -/
theorem C2_cross_sensitivity_single_alert (pc : PatientContext)
    (medications : List (Option Medication)) (med : Medication) (sev : String)
    (hm : some med ∈ medications)
    (ha : ({ allergen := "Penicillin", severity := sev } : Allergy) ∈ pc.allergies)
    (hg : med.genericName = "Amoxicillin") :
    allergyPairAlerts { allergen := "Penicillin", severity := sev } med
        = [crossAllergyAlert { allergen := "Penicillin", severity := sev } med] ∧
      (crossAllergyAlert { allergen := "Penicillin", severity := sev } med).severity
        = AlertSeverity.WARNING ∧
      (crossAllergyAlert { allergen := "Penicillin", severity := sev } med).canOverride
        = true ∧
      crossAllergyAlert { allergen := "Penicillin", severity := sev } med
        ∈ checkAllergies pc medications := by
  have hd : directMatchB { allergen := "Penicillin", severity := sev } med = false := by
    simp only [directMatchB, hg]
    decide
  have hc : checkCrossSensitivity "Penicillin" med.genericName = true := by
    rw [hg]; decide
  have hpair : allergyPairAlerts { allergen := "Penicillin", severity := sev } med
      = [crossAllergyAlert { allergen := "Penicillin", severity := sev } med] := by
    simp [allergyPairAlerts, hd, hc]
  refine ⟨hpair, rfl, rfl, ?_⟩
  have hne : pc.allergies.isEmpty = false := by
    cases h : pc.allergies with
    | nil => rw [h] at ha; cases ha
    | cons x xs => simp
  simp only [checkAllergies, hne, Bool.false_eq_true, if_false]
  refine List.mem_flatMap.mpr ⟨some med, hm, ?_⟩
  refine List.mem_flatMap.mpr ⟨{ allergen := "Penicillin", severity := sev }, ha, ?_⟩
  rw [hpair]
  exact List.mem_singleton.mpr rfl

/-- C2 witness: the amended theorem applied to the concrete severe-penicillin
patient and the seeded amoxicillin record. -/
theorem C2_cross_sensitivity_single_alert_witness :
    allergyPairAlerts { allergen := "Penicillin", severity := "SEVERE" } amoxicillin
        = [crossAllergyAlert { allergen := "Penicillin", severity := "SEVERE" }
            amoxicillin] ∧
      (crossAllergyAlert { allergen := "Penicillin", severity := "SEVERE" }
        amoxicillin).severity = AlertSeverity.WARNING ∧
      (crossAllergyAlert { allergen := "Penicillin", severity := "SEVERE" }
        amoxicillin).canOverride = true ∧
      crossAllergyAlert { allergen := "Penicillin", severity := "SEVERE" } amoxicillin
        ∈ checkAllergies patientPenAllergy [some amoxicillin] :=
  C2_cross_sensitivity_single_alert patientPenAllergy [some amoxicillin] amoxicillin
    "SEVERE" (by decide) (by decide) rfl

/-! ### C3 — severity and override policy of direct allergy matches -/

/-- C3: every direct-match allergy alert is emitted into the output of
`checkAllergies`, with severity Critical exactly when the allergy severity is
Severe or LifeThreatening (Warning otherwise), and overridable exactly when
the severity is not LifeThreatening. -/
theorem C3_direct_allergy_alert_policy (pc : PatientContext)
    (medications : List (Option Medication)) (med : Medication) (allergy : Allergy)
    (hm : some med ∈ medications) (ha : allergy ∈ pc.allergies)
    (hd : directMatchB allergy med = true) :
    directAllergyAlert allergy med ∈ checkAllergies pc medications ∧
      ((directAllergyAlert allergy med).severity = AlertSeverity.CRITICAL ↔
        (allergy.severity = "SEVERE" ∨ allergy.severity = "LIFE_THREATENING")) ∧
      ((directAllergyAlert allergy med).canOverride = true ↔
        allergy.severity ≠ "LIFE_THREATENING") := by
  refine ⟨?_, ?_, ?_⟩
  · have hne : pc.allergies.isEmpty = false := by
      cases h : pc.allergies with
      | nil => rw [h] at ha; cases ha
      | cons x xs => simp
    simp only [checkAllergies, hne, Bool.false_eq_true, if_false]
    refine List.mem_flatMap.mpr ⟨some med, hm, ?_⟩
    refine List.mem_flatMap.mpr ⟨allergy, ha, ?_⟩
    simp [allergyPairAlerts, hd]
  · by_cases h1 : allergy.severity = "LIFE_THREATENING" <;>
      by_cases h2 : allergy.severity = "SEVERE" <;>
      simp [directAllergyAlert, h1, h2]
  · by_cases h1 : allergy.severity = "LIFE_THREATENING" <;>
      simp [directAllergyAlert, h1]

/-- C3 witness: the policy at a Severe penicillin allergy against the
penicillin record — Critical yet overridable. -/
theorem C3_direct_allergy_alert_policy_witness :
    directAllergyAlert { allergen := "Penicillin", severity := "SEVERE" } penicillinMed
        ∈ checkAllergies patientPenAllergy [some penicillinMed] ∧
      ((directAllergyAlert { allergen := "Penicillin", severity := "SEVERE" }
          penicillinMed).severity = AlertSeverity.CRITICAL ↔
        (("SEVERE" : String) = "SEVERE" ∨ ("SEVERE" : String) = "LIFE_THREATENING")) ∧
      ((directAllergyAlert { allergen := "Penicillin", severity := "SEVERE" }
          penicillinMed).canOverride = true ↔
        ("SEVERE" : String) ≠ "LIFE_THREATENING") :=
  C3_direct_allergy_alert_policy patientPenAllergy [some penicillinMed] penicillinMed
    { allergen := "Penicillin", severity := "SEVERE" } (by decide) (by decide) (by decide)

/-! ### C4 — the dosing policy of `calculateDose` -/

/-- C4 counterexample: with eGFR present and equal to 0 (so present and
< 50) and no severity, the frequency stays "BID" instead of becoming
once-daily — the JS-truthy guard `renalFunction && renalFunction < 50`
treats an eGFR of 0 as absent. -/
theorem C4_counterexample :
    ({ patientPlain with renalFunction := some 0 } : PatientContext).renalFunction
        = some 0 ∧
      (0 : Nat) < 50 ∧
      ccPlain.severity = none ∧
      (calculateDose amoxicillin { patientPlain with renalFunction := some 0 }
          ccPlain).frequency = "BID" ∧
      (calculateDose amoxicillin { patientPlain with renalFunction := some 0 }
          ccPlain).frequency ≠ "QD" := by
  decide

/-- C4 (amended): `calculateDose` keeps the medication route, defaults to
twice-daily for 7 days, switches to once-daily when the renal function is
present, nonzero and below 50 (an eGFR of 0 is treated as absent by the
JS-truthy guard), and a severity of "severe" overrides the frequency to
four-times-daily for IV medications (three-times-daily otherwise) with a
duration of 10-14 days, taking precedence over the renal adjustment. -/
theorem C4_dosing_policy (med : Medication) (pc : PatientContext)
    (cc : ClinicalContext) :
    (calculateDose med pc cc).route = med.route ∧
      (cc.severity = some "severe" →
        (calculateDose med pc cc).frequency
            = (if med.route == "IV" then "Q6H" else "TID") ∧
          (calculateDose med pc cc).duration = "10-14 days") ∧
      (cc.severity ≠ some "severe" →
        (calculateDose med pc cc).duration = "7 days" ∧
          ((∃ n, pc.renalFunction = some n ∧ n ≠ 0 ∧ n < 50) →
            (calculateDose med pc cc).frequency = "QD") ∧
          ((∀ n, pc.renalFunction = some n → n = 0 ∨ 50 ≤ n) →
            (calculateDose med pc cc).frequency = "BID")) := by
  refine ⟨rfl, ?_, ?_⟩
  · intro h
    simp [calculateDose, h]
  · intro h
    have hb : (cc.severity == some "severe") = false := by
      simpa using h
    refine ⟨by simp [calculateDose, hb], ?_, ?_⟩
    · rintro ⟨n, hn, hnz, hlt⟩
      simp [calculateDose, hb, hn, truthyOptNat, hnz, hlt]
    · intro hno
      cases hr : pc.renalFunction with
      | none => simp [calculateDose, hb, hr, truthyOptNat]
      | some n =>
        rcases hno n hr with h0 | h50
        · simp [calculateDose, hb, hr, truthyOptNat, h0]
        · simp [calculateDose, hb, hr, truthyOptNat, Nat.not_lt.mpr h50]

/-- C4 witness: severe IV case escalates to Q6H for 10-14 days, and the
non-severe renal case (eGFR 40) reduces to once-daily. -/
theorem C4_dosing_policy_witness :
    ((calculateDose ceftriaxoneIV patientPlain ccSevere).frequency
          = (if ceftriaxoneIV.route == "IV" then "Q6H" else "TID") ∧
        (calculateDose ceftriaxoneIV patientPlain ccSevere).duration = "10-14 days") ∧
      (calculateDose amoxicillin { patientPlain with renalFunction := some 40 }
          ccPlain).frequency = "QD" :=
  ⟨(C4_dosing_policy ceftriaxoneIV patientPlain ccSevere).2.1 rfl,
    ((C4_dosing_policy amoxicillin { patientPlain with renalFunction := some 40 }
      ccPlain).2.2 (by decide)).2.1 ⟨40, rfl, by decide, by decide⟩⟩

/-! ### C10 — the rule-path rationale asserts pregnancy safety unconditionally -/

/-- Joining a clause list that ends in `s` yields a string ending in `s`. -/
theorem joinSpace_append_singleton (l : List String) (s : String) :
    ∃ p, joinSpace (l ++ [s]) = p ++ s := by
  induction l with
  | nil => exact ⟨"", by simp [joinSpace]⟩
  | cons x l ih =>
    obtain ⟨p, hp⟩ := ih
    rcases hl : l ++ [s] with _ | ⟨y, ys⟩
    · exact absurd hl (by simp)
    · refine ⟨x ++ " " ++ p, ?_⟩
      have hstep : joinSpace ((x :: l) ++ [s]) = x ++ " " ++ joinSpace (l ++ [s]) := by
        rw [List.cons_append, hl]
        rfl
      rw [hstep, hp]
      simp [String.append_assoc]

/-- For a pregnant patient the clause list of `generateRationale` always ends
with the pregnancy-safety sentence, whatever the medication. -/
theorem rationaleParts_pregnant (med : Medication) (rule : ClinicalRule)
    (pc : PatientContext) (cc : ClinicalContext) (hp : pc.isPregnant = true) :
    ∃ l, rationaleParts med rule pc cc = l ++ [pregnancySafetySentence] := by
  refine ⟨(if med.isAntibiotic then
      (if med.awaRe == AWaReCategory.ACCESS then
        [med.genericName ++
          " is an Access antibiotic with low resistance risk and broad availability."]
      else if med.awaRe == AWaReCategory.WATCH then
        [med.genericName ++
          " is a Watch antibiotic. It has higher resistance potential and should be used when Access antibiotics are unsuitable."]
      else [])
    else []) ++
    ["Recommended as first-line treatment for " ++ cc.diagnosis ++ " based on " ++
      jsOrString rule.guidelineSource "clinical guidelines" ++ "."] ++
    (if truthyOptNat pc.renalFunction && pc.renalFunction.getD 0 < 60 then
      ["Dosing adjusted for renal function (eGFR: " ++
        toString (pc.renalFunction.getD 0) ++ ")."]
    else []) ++
    (if pc.age < 18 then ["Pediatric dosing applied based on weight and age."] else []), ?_⟩
  simp [rationaleParts, hp]

/-- C10: for every rule-path recommendation computed for a pregnant patient,
the primary rationale string ends with the sentence "Considered safe for use
in pregnancy (Category B)." — regardless of the medication recommended, since
`generateRationale` appends the sentence from `isPregnant` alone without
consulting any medication pregnancy data. -/
theorem C10_rationale_asserts_pregnancy_safety (pc : PatientContext)
    (cc : ClinicalContext) (rules : List ClinicalRule) (cat : Catalog)
    (r : RecommendationResult) (hp : pc.isPregnant = true)
    (hm : findMatchingRules cc rules ≠ [])
    (hr : getRecommendations pc cc rules cat = Except.ok r) :
    ∃ p, r.primary.rationale = p ++ pregnancySafetySentence := by
  rcases hbest : findMatchingRules cc rules with _ | ⟨best, rest⟩
  · exact absurd hbest hm
  · rcases hpm : (primaryMedIdOf best.firstLineChoice).bind (findMedicationById cat)
      with _ | pm
    · simp only [getRecommendations, hbest, hpm, reduceCtorEq] at hr
    · simp only [getRecommendations, hbest, hpm, Except.ok.injEq] at hr
      subst hr
      show ∃ p, generateRationale pm best pc cc = p ++ pregnancySafetySentence
      rw [generateRationale]
      obtain ⟨l, hl⟩ := rationaleParts_pregnant pm best pc cc hp
      rw [hl]
      exact joinSpace_append_singleton l pregnancySafetySentence

/-- C10 witness: a pregnant patient recommended warfarin by a rule still gets
a rationale ending in the pregnancy-safety sentence, even though the safety
engine treats warfarin as contraindicated in pregnancy (Critical,
non-overridable). -/
theorem C10_rationale_asserts_pregnancy_safety_witness :
    (∃ r p, getRecommendations patientPregnant ccWarfarin [ruleWarfarin]
          catalogWarfarin = Except.ok r ∧
        r.primary.rationale = p ++ pregnancySafetySentence) ∧
      checkPregnancyLactation patientPregnant [some warfarin]
        = [pregnancyContraAlert warfarin] ∧
      (pregnancyContraAlert warfarin).severity = AlertSeverity.CRITICAL ∧
      (pregnancyContraAlert warfarin).canOverride = false := by
  refine ⟨?_, by decide, rfl, rfl⟩
  have hs : (getRecommendations patientPregnant ccWarfarin [ruleWarfarin]
      catalogWarfarin).toOption.isSome = true := by decide
  have hgen : ∀ (x : Except RulesEngineError RecommendationResult)
      (v : RecommendationResult), x.toOption = some v → x = Except.ok v := by
    intro x v h
    cases x with
    | error e => simp [Except.toOption] at h
    | ok w => simp only [Except.toOption, Option.some_inj] at h; rw [h]
  have hok := hgen _ _ (Option.some_get hs).symm
  obtain ⟨p, hp2⟩ := C10_rationale_asserts_pregnancy_safety patientPregnant ccWarfarin
    [ruleWarfarin] catalogWarfarin _ rfl (by decide) hok
  exact ⟨_, p, hok, hp2⟩

/-! ### C5 — fallback path of `getRecommendations` -/

/-- C5: when the diagnosis code is absent no rule matches; and whenever no
rule matches, the fallback path returns — given at least one active Access
antibiotic in the catalog — a primary with confidence 60, at most two
alternatives all with confidence 50, `rulesApplied` equal to the one-element
stewardship list, and the mandatory no-specific-rule warning; with no active
Access antibiotic it fails with the no-suitable-medication error. -/
theorem C5_fallback_correctness (pc : PatientContext) (cc : ClinicalContext)
    (rules : List ClinicalRule) (cat : Catalog) :
    (cc.diagnosisCode = none → findMatchingRules cc rules = []) ∧
      (findMatchingRules cc rules = [] →
        ((∃ m ∈ cat.medications,
            m.isAntibiotic = true ∧ m.awaRe = AWaReCategory.ACCESS ∧ m.isActive = true) →
          ∃ r, getRecommendations pc cc rules cat = Except.ok r ∧
            r.primary.confidence = 60 ∧
            r.alternatives.length ≤ 2 ∧
            (∀ a ∈ r.alternatives, a.confidence = 50) ∧
            r.rulesApplied = ["General antibiotic stewardship principles"] ∧
            fallbackWarning ∈ r.warnings) ∧
        ((¬ ∃ m ∈ cat.medications,
            m.isAntibiotic = true ∧ m.awaRe = AWaReCategory.ACCESS ∧ m.isActive = true) →
          getRecommendations pc cc rules cat
            = Except.error RulesEngineError.noSuitableMedication)) := by
  refine ⟨fun h => by simp [findMatchingRules, h], fun hm => ⟨?_, ?_⟩⟩
  · rintro ⟨m, hmem, h1, h2, h3⟩
    have hfil : m ∈ cat.medications.filter
        (fun x => x.isAntibiotic && x.awaRe == AWaReCategory.ACCESS && x.isActive) := by
      refine List.mem_filter.mpr ⟨hmem, ?_⟩
      simp [h1, h2, h3]
    cases hfl : cat.medications.filter
        (fun x => x.isAntibiotic && x.awaRe == AWaReCategory.ACCESS && x.isActive) with
    | nil => rw [hfl] at hfil; cases hfil
    | cons p ps =>
      have hacc : accessAntibiotics cat = p :: ps.take 4 := by
        rw [accessAntibiotics, hfl]
        rfl
      simp only [getRecommendations, hm, getGeneralRecommendations, hacc]
      refine ⟨_, rfl, rfl, ?_, ?_, rfl, ?_⟩
      · simp
      · intro a ha
        rcases List.mem_map.mp ha with ⟨b, hb, rfl⟩
        rfl
      · exact List.mem_singleton.mpr rfl
  · intro hno
    have hfl : cat.medications.filter
        (fun x => x.isAntibiotic && x.awaRe == AWaReCategory.ACCESS && x.isActive) = [] := by
      rw [List.filter_eq_nil_iff]
      intro a ha hpa
      simp only [Bool.and_eq_true, beq_iff_eq] at hpa
      exact hno ⟨a, ha, hpa.1.1, hpa.1.2, hpa.2⟩
    have hacc : accessAntibiotics cat = [] := by
      rw [accessAntibiotics, hfl]
      rfl
    simp [getRecommendations, hm, getGeneralRecommendations, hacc]

/-- C5 witness: with no rules and the amoxicillin catalog the fallback
succeeds with the claimed shape; with a catalog holding only warfarin (not an
antibiotic) it fails with the no-suitable-medication error. -/
theorem C5_fallback_correctness_witness :
    (∃ r, getRecommendations patientPlain ccPlain [] catalogAmox = Except.ok r ∧
        r.primary.confidence = 60 ∧
        r.alternatives.length ≤ 2 ∧
        (∀ a ∈ r.alternatives, a.confidence = 50) ∧
        r.rulesApplied = ["General antibiotic stewardship principles"] ∧
        fallbackWarning ∈ r.warnings) ∧
      getRecommendations patientPlain ccPlain [] catalogWarfarin
        = Except.error RulesEngineError.noSuitableMedication :=
  ⟨((C5_fallback_correctness patientPlain ccPlain [] catalogAmox).2 rfl).1 (by decide),
    ((C5_fallback_correctness patientPlain ccPlain [] catalogWarfarin).2 rfl).2 (by decide)⟩

/-! ### C6 — the primary medication round-trip -/

/-- C6 counterexample: a successful rule-path recommendation whose primary
medication id resolves to a record with `isActive = false` — the rule path
never checks the active flag of the rule's first-line medication. -/
theorem C6_counterexample :
    ((getRecommendations patientPlain ccA00 [ruleInactiveMed] catalogInactive).toOption.map
        (fun r => (findMedicationById catalogInactive r.primary.medication.id).map
          Medication.isActive))
      = some (some false) := by
  decide

/-- With pairwise-distinct ids, looking a member up by its own id finds it. -/
theorem find?_id_of_nodup (l : List Medication) (m : Medication) (hm : m ∈ l)
    (hnodup : (l.map Medication.id).Nodup) :
    l.find? (fun x => x.id == m.id) = some m := by
  induction l with
  | nil => cases hm
  | cons x xs ih =>
    rcases List.mem_cons.mp hm with rfl | hmx
    · simp [List.find?_cons]
    · have hxid : x.id ≠ m.id := by
        intro he
        have : m.id ∈ xs.map Medication.id := List.mem_map.mpr ⟨m, hmx, rfl⟩
        rw [← he] at this
        exact (List.nodup_cons.mp hnodup).1 this
      have hx : (x.id == m.id) = false := by
        simpa using hxid
      rw [List.find?_cons, hx]
      exact ih hmx (List.nodup_cons.mp hnodup).2

/-- C6 (amended): for every successful result of `getRecommendations` over a
catalog with pairwise-distinct medication ids, the primary medication id
resolves via `findMedicationById` to a medication record; on the fallback
path that record additionally has `isActive = true`, while on the rule path
the active flag is not guaranteed. -/
theorem C6_primary_round_trip (pc : PatientContext) (cc : ClinicalContext)
    (rules : List ClinicalRule) (cat : Catalog) (r : RecommendationResult)
    (hnodup : (cat.medications.map Medication.id).Nodup)
    (hr : getRecommendations pc cc rules cat = Except.ok r) :
    ∃ m, findMedicationById cat r.primary.medication.id = some m ∧
      (findMatchingRules cc rules = [] → m.isActive = true) := by
  rcases hbest : findMatchingRules cc rules with _ | ⟨best, rest⟩
  · rw [getRecommendations, hbest] at hr
    cases hacc : accessAntibiotics cat with
    | nil => rw [getGeneralRecommendations, hacc] at hr; cases hr
    | cons p ps =>
      simp only [getGeneralRecommendations, hacc, Except.ok.injEq] at hr
      subst hr
      have hpmem : p ∈ cat.medications.filter
          (fun x => x.isAntibiotic && x.awaRe == AWaReCategory.ACCESS && x.isActive) := by
        have : p ∈ accessAntibiotics cat := by rw [hacc]; exact List.mem_cons_self p ps
        exact List.take_subset 5 _ this
      have hp1 := List.mem_filter.mp hpmem
      refine ⟨p, ?_, fun _ => ?_⟩
      · show findMedicationById cat p.id = some p
        exact find?_id_of_nodup cat.medications p hp1.1 hnodup
      · have := hp1.2
        simp only [Bool.and_eq_true] at this
        exact this.2
  · rcases hpm : (primaryMedIdOf best.firstLineChoice).bind (findMedicationById cat)
      with _ | pm
    · simp only [getRecommendations, hbest, hpm, reduceCtorEq] at hr
    · simp only [getRecommendations, hbest, hpm, Except.ok.injEq] at hr
      subst hr
      rcases Option.bind_eq_some.mp hpm with ⟨id0, hid0, hfind⟩
      have hpmid : pm.id = id0 := by
        have := List.find?_some hfind
        simpa using this
      refine ⟨pm, ?_, fun hnil => ?_⟩
      · show findMedicationById cat pm.id = some pm
        rw [findMedicationById, hpmid]
        exact hfind
      · exact (List.cons_ne_nil best rest hnil).elim

/-- C6 witness: the amended round-trip at the concrete fallback catalog. -/
theorem C6_primary_round_trip_witness :
    ∃ m, findMedicationById catalogAmox
        (((getRecommendations patientPlain ccPlain [] catalogAmox).toOption.get
          (by decide)).primary.medication.id) = some m ∧
      (findMatchingRules ccPlain [] = [] → m.isActive = true) := by
  have hs : (getRecommendations patientPlain ccPlain [] catalogAmox).toOption.isSome
      = true := by decide
  have hgen : ∀ (x : Except RulesEngineError RecommendationResult)
      (v : RecommendationResult), x.toOption = some v → x = Except.ok v := by
    intro x v h
    cases x with
    | error e => simp [Except.toOption] at h
    | ok w => simp only [Except.toOption, Option.some_inj] at h; rw [h]
  exact C6_primary_round_trip patientPlain ccPlain [] catalogAmox _ (by decide)
    (hgen _ _ (Option.some_get hs).symm)

/-! ### C9 — unresolvable entries are not skipped by the pairwise lookup -/

/-- C9: at the failing input, the proposed entry with the unresolvable id
"unknown-id" is not skipped silently: its pairwise lookup passes an undefined
`drug1Id`, which the Prisma filter ignores, so the (unknown, amoxicillin)
pair matches the amoxicillin-warfarin interaction and injects an interaction
alert; with the unresolvable entry omitted the alert set is empty, so the two
alert sets differ, contradicting the skip-on-missing-medication design. -/
theorem C9_failing_input_evaluation :
    findMedicationById catalogInteraction "unknown-id" = none ∧
      (performSafetyCheck patientPlain
          [⟨"unknown-id", "500mg"⟩, ⟨"med-amox", "500mg"⟩] catalogInteraction).alerts
        = [pairInteractionAlert interactionAmoxWarf] ∧
      (performSafetyCheck patientPlain [⟨"med-amox", "500mg"⟩]
          catalogInteraction).alerts = [] := by
  decide

/-! ### C8 — duplicate-therapy class grouping

Supporting lemmas characterising the insertion-ordered `groups` object of
`groupByTherapeuticClass`. -/

/-- `addToGroups` keeps the key list, appending `k` when it is new. -/
theorem addToGroups_keys (g : List (String × List String)) (k v : String) :
    (addToGroups g k v).map Prod.fst
      = if k ∈ g.map Prod.fst then g.map Prod.fst else g.map Prod.fst ++ [k] := by
  induction g with
  | nil => simp [addToGroups]
  | cons e g ih =>
    obtain ⟨k', vs⟩ := e
    by_cases hk : (k' == k) = true
    · have heq : k' = k := by simpa using hk
      have hmem : k ∈ ((k', vs) :: g).map Prod.fst := by simp [heq]
      rw [if_pos hmem]
      simp [addToGroups, hk]
    · have hne : k ≠ k' := by
        intro h
        subst h
        exact hk (by simp)
      have ha : addToGroups ((k', vs) :: g) k v = (k', vs) :: addToGroups g k v := by
        simp [addToGroups, hk]
      by_cases hmem : k ∈ g.map Prod.fst
      · have hmem2 : k ∈ ((k', vs) :: g).map Prod.fst := by
          simp only [List.map_cons, List.mem_cons]
          exact Or.inr hmem
        rw [if_pos hmem2, ha, List.map_cons, ih, if_pos hmem, List.map_cons]
      · have hmem2 : k ∉ ((k', vs) :: g).map Prod.fst := by
          simp only [List.map_cons, List.mem_cons]
          rintro (h | h)
          · exact hne h
          · exact hmem h
        rw [if_neg hmem2, ha, List.map_cons, ih, if_neg hmem, List.map_cons,
          List.cons_append]

/-- `addToGroups` preserves distinctness of the keys. -/
theorem addToGroups_keys_nodup (g : List (String × List String)) (k v : String)
    (h : (g.map Prod.fst).Nodup) : ((addToGroups g k v).map Prod.fst).Nodup := by
  rw [addToGroups_keys]
  by_cases hmem : k ∈ g.map Prod.fst
  · simpa [hmem] using h
  · simp only [hmem, if_false]
    simp [List.nodup_append, h, hmem]

/-- The key list of the groups built by `groupByTherapeuticClass` is
duplicate-free. -/
theorem groupBy_keys_nodup (l : List GroupedMed) :
    ((groupByTherapeuticClass l).map Prod.fst).Nodup := by
  suffices h : ∀ (g : List (String × List String)), (g.map Prod.fst).Nodup →
      ((List.foldl (fun g m => addToGroups g (classKey m) m.genericName) g l).map
        Prod.fst).Nodup by
    exact h [] (by simp)
  induction l with
  | nil => intro g hg; simpa using hg
  | cons m l ih =>
    intro g hg
    exact ih _ (addToGroups_keys_nodup g (classKey m) m.genericName hg)

/-- Adding a value under `k` increments the stored length at `k`. -/
theorem entryLen_addToGroups_self (g : List (String × List String)) (k v : String) :
    entryLen (addToGroups g k v) k = entryLen g k + 1 := by
  induction g with
  | nil =>
    have h1 : List.find? (fun e => e.1 == k) [(k, [v])] = some (k, [v]) :=
      List.find?_cons_of_pos _ (by simp)
    simp [addToGroups, entryLen, h1]
  | cons e g ih =>
    obtain ⟨k', vs⟩ := e
    by_cases hk : (k' == k) = true
    · have ha : addToGroups ((k', vs) :: g) k v = (k', vs ++ [v]) :: g := by
        simp [addToGroups, hk]
      have h1 : List.find? (fun e => e.1 == k) ((k', vs ++ [v]) :: g)
          = some (k', vs ++ [v]) := List.find?_cons_of_pos _ hk
      have h2 : List.find? (fun e => e.1 == k) ((k', vs) :: g) = some (k', vs) :=
        List.find?_cons_of_pos _ hk
      rw [ha]
      simp [entryLen, h1, h2]
    · have ha : addToGroups ((k', vs) :: g) k v = (k', vs) :: addToGroups g k v := by
        simp [addToGroups, hk]
      have h1 : List.find? (fun e => e.1 == k) ((k', vs) :: addToGroups g k v)
          = List.find? (fun e => e.1 == k) (addToGroups g k v) :=
        List.find?_cons_of_neg _ hk
      have h2 : List.find? (fun e => e.1 == k) ((k', vs) :: g)
          = List.find? (fun e => e.1 == k) g := List.find?_cons_of_neg _ hk
      rw [ha]
      simp only [entryLen, h1, h2]
      exact ih

/-- Adding a value under `k` leaves other keys untouched. -/
theorem entryLen_addToGroups_ne (g : List (String × List String)) (k v k' : String)
    (h : k' ≠ k) : entryLen (addToGroups g k v) k' = entryLen g k' := by
  induction g with
  | nil =>
    have h1 : List.find? (fun e => e.1 == k') [(k, [v])]
        = List.find? (fun e => e.1 == k') [] :=
      List.find?_cons_of_neg _ (by simpa using Ne.symm h)
    simp [addToGroups, entryLen, h1]
  | cons e g ih =>
    obtain ⟨k'', vs⟩ := e
    by_cases hk : (k'' == k) = true
    · have ha : addToGroups ((k'', vs) :: g) k v = (k'', vs ++ [v]) :: g := by
        simp [addToGroups, hk]
      have hkk : (k'' == k') = false := by
        have : k'' = k := by simpa using hk
        subst this
        simpa using Ne.symm h
      have h1 : List.find? (fun e => e.1 == k') ((k'', vs ++ [v]) :: g)
          = List.find? (fun e => e.1 == k') g :=
        List.find?_cons_of_neg _ (by simp [hkk])
      have h2 : List.find? (fun e => e.1 == k') ((k'', vs) :: g)
          = List.find? (fun e => e.1 == k') g :=
        List.find?_cons_of_neg _ (by simp [hkk])
      rw [ha]
      simp [entryLen, h1, h2]
    · have ha : addToGroups ((k'', vs) :: g) k v = (k'', vs) :: addToGroups g k v := by
        simp [addToGroups, hk]
      rw [ha]
      by_cases hk' : (k'' == k') = true
      · have h1 : List.find? (fun e => e.1 == k') ((k'', vs) :: addToGroups g k v)
            = some (k'', vs) := List.find?_cons_of_pos _ hk'
        have h2 : List.find? (fun e => e.1 == k') ((k'', vs) :: g) = some (k'', vs) :=
          List.find?_cons_of_pos _ hk'
        simp [entryLen, h1, h2]
      · have h1 : List.find? (fun e => e.1 == k') ((k'', vs) :: addToGroups g k v)
            = List.find? (fun e => e.1 == k') (addToGroups g k v) :=
          List.find?_cons_of_neg _ hk'
        have h2 : List.find? (fun e => e.1 == k') ((k'', vs) :: g)
            = List.find? (fun e => e.1 == k') g := List.find?_cons_of_neg _ hk'
        simp only [entryLen, h1, h2]
        exact ih

/-- The stored length at `k` after grouping equals the number of medications
whose class key is `k`. -/
theorem entryLen_groupBy (l : List GroupedMed) (k : String) :
    entryLen (groupByTherapeuticClass l) k
      = l.countP (fun m => classKey m == k) := by
  suffices h : ∀ (g : List (String × List String)),
      entryLen (List.foldl (fun g m => addToGroups g (classKey m) m.genericName) g l) k
        = entryLen g k + l.countP (fun m => classKey m == k) by
    have h0 : entryLen ([] : List (String × List String)) k = 0 := rfl
    rw [groupByTherapeuticClass, h [], h0, Nat.zero_add]
  induction l with
  | nil => intro g; simp
  | cons m l ih =>
    intro g
    simp only [List.foldl_cons, ih, List.countP_cons]
    by_cases hm : (classKey m == k) = true
    · have he : classKey m = k := by simpa using hm
      rw [he, entryLen_addToGroups_self]
      have htt : ((k == k) = true) := by simp
      rw [if_pos htt]
      omega
    · have hne : k ≠ classKey m := by
        intro h
        subst h
        exact hm (by simp)
      rw [entryLen_addToGroups_ne _ _ _ _ hne]
      simp [hm]

/-- With distinct keys, looking an entry up by its own key finds it. -/
theorem find?_key_of_nodup (g : List (String × List String))
    (e : String × List String) (he : e ∈ g) (h : (g.map Prod.fst).Nodup) :
    g.find? (fun x => x.1 == e.1) = some e := by
  induction g with
  | nil => cases he
  | cons x g ih =>
    rcases List.mem_cons.mp he with rfl | hmem
    · simp [List.find?_cons]
    · have hxid : x.1 ≠ e.1 := by
        intro hx
        have : e.1 ∈ g.map Prod.fst := List.mem_map.mpr ⟨e, hmem, rfl⟩
        rw [← hx] at this
        exact (List.nodup_cons.mp h).1 this
      have hx : (x.1 == e.1) = false := by simpa using hxid
      rw [List.find?_cons, hx]
      exact ih hmem (List.nodup_cons.mp h).2

/-- `classDupAlert` is injective in the class name. -/
theorem classDupAlert_inj {a b : String} (h : classDupAlert a = classDupAlert b) :
    a = b := by
  have hm : "Multiple medications from same class: " ++ a
      = "Multiple medications from same class: " ++ b := congrArg SafetyAlert.message h
  have hd : ("Multiple medications from same class: " ++ a).data
      = ("Multiple medications from same class: " ++ b).data := congrArg String.data hm
  rw [String.data_append, String.data_append] at hd
  exact String.ext (List.append_cancel_left hd)

/-- Membership in the class-duplication alerts. -/
theorem mem_classDupAlerts (g : List (String × List String)) (a : SafetyAlert) :
    a ∈ classDupAlerts g ↔ ∃ e ∈ g, 1 < e.2.length ∧ a = classDupAlert e.1 := by
  constructor
  · intro h
    rcases List.mem_filterMap.mp h with ⟨e, he, hfe⟩
    by_cases hl : e.2.length > 1
    · rw [if_pos hl] at hfe
      exact ⟨e, he, hl, (Option.some_inj.mp hfe).symm⟩
    · rw [if_neg hl] at hfe
      cases hfe
  · rintro ⟨e, he, hl, rfl⟩
    exact List.mem_filterMap.mpr ⟨e, he, by rw [if_pos hl]⟩

/-- With distinct keys the class-duplication alert list is duplicate-free. -/
theorem classDupAlerts_nodup (g : List (String × List String))
    (h : (g.map Prod.fst).Nodup) : (classDupAlerts g).Nodup := by
  induction g with
  | nil => simp [classDupAlerts]
  | cons e g ih =>
    have hg := (List.nodup_cons.mp h).2
    have hke : e.1 ∉ g.map Prod.fst := (List.nodup_cons.mp h).1
    by_cases hl : e.2.length > 1
    · have : classDupAlerts (e :: g) = classDupAlert e.1 :: classDupAlerts g := by
        simp [classDupAlerts, hl]
      rw [this, List.nodup_cons]
      refine ⟨?_, ih hg⟩
      intro hmem
      rcases (mem_classDupAlerts g (classDupAlert e.1)).mp hmem with ⟨e', he', _, heq⟩
      exact hke (List.mem_map.mpr ⟨e', he', (classDupAlert_inj heq).symm⟩)
    · have : classDupAlerts (e :: g) = classDupAlerts g := by
        simp [classDupAlerts, hl]
      rw [this]
      exact ih hg

/-- With distinct keys, the class alert for `k` occurs iff the entry at `k`
holds more than one name. -/
theorem classDupAlert_mem_iff (g : List (String × List String)) (k : String)
    (h : (g.map Prod.fst).Nodup) :
    classDupAlert k ∈ classDupAlerts g ↔ 1 < entryLen g k := by
  constructor
  · intro hmem
    rcases (mem_classDupAlerts g _).mp hmem with ⟨e, he, hl, heq⟩
    have hk : e.1 = k := (classDupAlert_inj heq).symm
    have hfind := find?_key_of_nodup g e he h
    rw [hk] at hfind
    simp only [entryLen, hfind]
    exact hl
  · intro hl
    cases hfind : g.find? (fun x => x.1 == k) with
    | none =>
      simp only [entryLen, hfind] at hl
      omega
    | some e =>
      have hmem := List.mem_of_find?_eq_some hfind
      have hk : e.1 = k := by simpa using List.find?_some hfind
      simp only [entryLen, hfind] at hl
      exact (mem_classDupAlerts g _).mpr ⟨e, hmem, hl, by rw [hk]⟩

/-- Every same-drug duplicate alert is a `sameDrugAlert`. -/
theorem mem_sameDrugAlerts (proposedMeds : List (Option Medication))
    (currentMeds : List CurrentMedication) (a : SafetyAlert)
    (h : a ∈ sameDrugAlerts proposedMeds currentMeds) :
    ∃ m, a = sameDrugAlert m := by
  rcases List.mem_flatMap.mp h with ⟨om, _, hin⟩
  cases om with
  | none => cases hin
  | some m =>
    rcases List.mem_filterMap.mp hin with ⟨cur, _, hfe⟩
    by_cases hc : (toLowerStr m.genericName == toLowerStr cur.genericName
        || m.id == cur.medicationId) = true
    · rw [if_pos hc] at hfe
      exact ⟨m, (Option.some_inj.mp hfe).symm⟩
    · rw [if_neg hc] at hfe
      cases hfe

/-- A same-drug alert is never a class-duplication alert (their constant
recommendation fields differ). -/
theorem sameDrugAlert_ne_classDupAlert (m : Medication) (k : String) :
    sameDrugAlert m ≠ classDupAlert k := by
  intro h
  have := congrArg SafetyAlert.recommendation h
  simp [sameDrugAlert, classDupAlert] at this

/-- C8 (amended): the duplicate-therapy check emits exactly one Warning,
overridable class alert for every class key held by more than one medication
of the combined list — in which every current medication (and any proposed
medication with an empty class) is keyed "Unknown", so real therapeutic
classes of current medications are never consulted — and no class alert for
a key held by at most one medication. -/
theorem C8_duplicate_class_policy (proposedMeds : List (Option Medication))
    (currentMeds : List CurrentMedication) (k : String) :
    (checkDuplicateTherapy proposedMeds currentMeds).count (classDupAlert k)
        = (if 1 < (combinedForGrouping proposedMeds currentMeds).countP
            (fun m => classKey m == k) then 1 else 0) ∧
      (classDupAlert k).severity = AlertSeverity.WARNING ∧
      (classDupAlert k).canOverride = true := by
  refine ⟨?_, rfl, rfl⟩
  rw [checkDuplicateTherapy, List.count_append]
  have h0 : (sameDrugAlerts proposedMeds currentMeds).count (classDupAlert k) = 0 := by
    refine List.count_eq_zero_of_not_mem ?_
    intro hmem
    rcases mem_sameDrugAlerts _ _ _ hmem with ⟨m, hm⟩
    exact sameDrugAlert_ne_classDupAlert m k hm.symm
  rw [h0, Nat.zero_add]
  set g := groupByTherapeuticClass (combinedForGrouping proposedMeds currentMeds) with hg
  have hnd : (g.map Prod.fst).Nodup := groupBy_keys_nodup _
  have hiff := classDupAlert_mem_iff g k hnd
  rw [hg, entryLen_groupBy] at hiff
  by_cases hcount : 1 < (combinedForGrouping proposedMeds currentMeds).countP
      (fun m => classKey m == k)
  · rw [if_pos hcount]
    exact List.count_eq_one_of_mem (classDupAlerts_nodup g hnd) (hiff.mpr hcount)
  · rw [if_neg hcount]
    exact List.count_eq_zero_of_not_mem (fun hmem => hcount (hiff.mp hmem))

/-- C8 counterexample: two current medications that resolve in the catalog to
records of different therapeutic classes — so no therapeutic class is shared
by more than one medication — still trigger one class-duplication alert,
because the check keys every current medication as "Unknown". -/
theorem C8_counterexample :
    checkDuplicateTherapy []
        [⟨"med-warf", "Warfarin"⟩, ⟨"med-metf", "Metformin"⟩]
      = [classDupAlert "Unknown"] ∧
      findMedicationById catalogTwo "med-warf" = some warfarin ∧
      findMedicationById catalogTwo "med-metf" = some metformin ∧
      warfarin.therapeuticClass ≠ metformin.therapeuticClass := by
  decide

/-- C8 witness: the amended count at a concrete over-represented key and at a
key held once. -/
theorem C8_duplicate_class_policy_witness :
    (checkDuplicateTherapy [some amoxicillin]
        [⟨"med-warf", "Warfarin"⟩, ⟨"med-metf", "Metformin"⟩]).count
          (classDupAlert "Unknown")
        = (if 1 < (combinedForGrouping [some amoxicillin]
            [⟨"med-warf", "Warfarin"⟩, ⟨"med-metf", "Metformin"⟩]).countP
            (fun m => classKey m == "Unknown") then 1 else 0) ∧
      (classDupAlert "Unknown").severity = AlertSeverity.WARNING ∧
      (classDupAlert "Unknown").canOverride = true :=
  C8_duplicate_class_policy [some amoxicillin]
    [⟨"med-warf", "Warfarin"⟩, ⟨"med-metf", "Metformin"⟩] "Unknown"

/-! ### C7 — order-insensitivity and pairwise completeness -/

/-- The number of pairwise lookups is `C(N, 2)`. -/
theorem length_pairsOf {α : Type} (l : List α) :
    (pairsOf l).length = l.length.choose 2 := by
  induction l with
  | nil => rfl
  | cons x xs ih =>
    simp only [pairsOf, List.length_append, List.length_map, ih, List.length_cons]
    rw [Nat.choose_succ_succ xs.length 1, Nat.choose_one_right]

/-- Pairs only pair up members of the list. -/
theorem mem_pairsOf {α : Type} {l : List α} {p : α × α} (h : p ∈ pairsOf l) :
    p.1 ∈ l ∧ p.2 ∈ l := by
  induction l with
  | nil => cases h
  | cons x xs ih =>
    simp only [pairsOf, List.mem_append] at h
    rcases h with h | h
    · rcases List.mem_map.mp h with ⟨y, hy, rfl⟩
      exact ⟨List.mem_cons_self x xs, List.mem_cons_of_mem x hy⟩
    · rcases ih h with ⟨h1, h2⟩
      exact ⟨List.mem_cons_of_mem x h1, List.mem_cons_of_mem x h2⟩

/-- With a lawful equality test, a member of a duplicate-free list is counted
exactly once. -/
theorem count_eq_one_of_nodup_mem {α : Type} [BEq α] [LawfulBEq α] {l : List α}
    {a : α} (hnd : l.Nodup) (h : a ∈ l) : l.count a = 1 := by
  induction l with
  | nil => cases h
  | cons x xs ih =>
    obtain ⟨hx, hxs⟩ := List.nodup_cons.mp hnd
    rcases List.mem_cons.mp h with rfl | hmem
    · rw [List.count_cons_self, List.count_eq_zero_of_not_mem hx]
    · have hne : a ≠ x := fun he => hx (he ▸ hmem)
      rw [List.count_cons_of_ne hne, ih hxs hmem]

/-- Counting a pair inside one block of the double loop. -/
theorem count_map_pair {α : Type} [BEq α] [LawfulBEq α] [DecidableEq α]
    (x a b : α) (xs : List α) :
    (xs.map (fun y => (x, y))).count (a, b) = if a = x then xs.count b else 0 := by
  induction xs with
  | nil => simp
  | cons z zs ih =>
    simp only [List.map_cons, List.count_cons, ih]
    by_cases hax : a = x
    · subst hax
      by_cases hzb : z = b
      · subst hzb
        simp
      · simp [hzb]
    · have hne : ¬ ((x, z) = (a, b)) := by
        intro he
        exact hax (congrArg Prod.fst he).symm
      simp [hax, hne]

/-- Each unordered pair of distinct members of a duplicate-free list is
visited by the double loop exactly once. -/
theorem count_pairsOf_eq_one {α : Type} [BEq α] [LawfulBEq α] [DecidableEq α]
    {l : List α} (hnd : l.Nodup)
    {x y : α} (hx : x ∈ l) (hy : y ∈ l) (hxy : x ≠ y) :
    (pairsOf l).count (x, y) + (pairsOf l).count (y, x) = 1 := by
  induction l with
  | nil => cases hx
  | cons h t ih =>
    obtain ⟨hht, hndt⟩ := List.nodup_cons.mp hnd
    simp only [pairsOf, List.count_append, count_map_pair]
    rcases List.mem_cons.mp hx with rfl | hxt
    · have hyt : y ∈ t := by
        rcases List.mem_cons.mp hy with rfl | hyt
        · exact absurd rfl hxy
        · exact hyt
      have hz1 : (pairsOf t).count (x, y) = 0 :=
        List.count_eq_zero_of_not_mem (fun hmem => hht (mem_pairsOf hmem).1)
      have hz2 : (pairsOf t).count (y, x) = 0 :=
        List.count_eq_zero_of_not_mem (fun hmem => hht (mem_pairsOf hmem).2)
      have hc1 : t.count y = 1 := count_eq_one_of_nodup_mem hndt hyt
      rw [if_pos rfl, if_neg (fun hh => hxy hh.symm), hz1, hz2, hc1]
    · rcases List.mem_cons.mp hy with rfl | hyt
      · have hz1 : (pairsOf t).count (x, y) = 0 :=
          List.count_eq_zero_of_not_mem (fun hmem => hht (mem_pairsOf hmem).2)
        have hz2 : (pairsOf t).count (y, x) = 0 :=
          List.count_eq_zero_of_not_mem (fun hmem => hht (mem_pairsOf hmem).1)
        have hc1 : t.count x = 1 := count_eq_one_of_nodup_mem hndt hxt
        rw [if_neg hxy, if_pos rfl, hz1, hz2, hc1]
      · have hxh : x ≠ h := fun hh => hht (hh ▸ hxt)
        have hyh : y ≠ h := fun hh => hht (hh ▸ hyt)
        rw [if_neg hxh, if_neg hyh]
        have := ih hndt hxt hyt
        omega

/-- Mapping a symmetric function over the visited pairs is invariant, as a
multiset, under permutation of the underlying list. -/
theorem pairsOf_map_perm {α β : Type} (f : α × α → β)
    (hf : ∀ a b, f (a, b) = f (b, a)) :
    ∀ {l l' : List α}, l.Perm l' → ((pairsOf l).map f).Perm ((pairsOf l').map f) := by
  intro l l' h
  induction h with
  | nil => exact List.Perm.refl _
  | cons x h ih =>
    simp only [pairsOf, List.map_append, List.map_map]
    exact (h.map _).append ih
  | swap x y l =>
    simp only [pairsOf, List.map_cons, List.map_append, List.map_map,
      List.cons_append]
    rw [hf y x]
    exact List.Perm.cons _ (List.perm_append_comm_assoc _ _ _)
  | trans _ _ ih1 ih2 => exact ih1.trans ih2

/-- `find?` only depends on the pointwise behaviour of the predicate. -/
theorem find?_congrP {α : Type} (p q : α → Bool) (l : List α)
    (h : ∀ x, p x = q x) : l.find? p = l.find? q := by
  induction l with
  | nil => rfl
  | cons x xs ih =>
    by_cases hx : q x = true
    · rw [List.find?_cons_of_pos _ hx, List.find?_cons_of_pos _ (by rw [h x]; exact hx)]
    · rw [List.find?_cons_of_neg _ hx, List.find?_cons_of_neg _ (by rw [h x]; exact hx),
        ih]

/-- The interaction lookup is symmetric in the pair. -/
theorem findInteraction_symm (tbl : List DrugInteractionRec) (a b : Option String) :
    findInteraction tbl a b = findInteraction tbl b a := by
  refine find?_congrP _ _ tbl (fun r => ?_)
  exact Bool.or_comm _ _

/-- The pairwise alerts are exactly the successful lookups over the visited
pairs: the double loop performs one lookup per visited pair. -/
theorem proposedPairAlerts_eq (tbl : List DrugInteractionRec)
    (meds : List (Option Medication)) :
    proposedPairAlerts tbl meds = (pairsOf meds).filterMap
      (fun q => (findInteraction tbl (idOf q.1) (idOf q.2)).map pairInteractionAlert) := by
  induction meds with
  | nil => rfl
  | cons om rest ih =>
    simp only [proposedPairAlerts, pairsOf, List.filterMap_append, ih,
      List.filterMap_map]
    rfl

/-- Turning a map into a filterMap. -/
theorem filterMap_id_map {α β : Type} (Q : α → Option β) (l : List α) :
    (l.map Q).filterMap id = l.filterMap Q := by
  rw [List.filterMap_map]
  rfl

/-- The allergy check is permutation-invariant in the medication list. -/
theorem checkAllergies_perm (pc : PatientContext) {m m' : List (Option Medication)}
    (h : m.Perm m') : (checkAllergies pc m).Perm (checkAllergies pc m') := by
  rw [checkAllergies, checkAllergies]
  by_cases hc : pc.allergies.isEmpty = true
  · rw [if_pos hc, if_pos hc]
  · rw [if_neg hc, if_neg hc]
    exact h.flatMap_right _

/-- The interaction check is permutation-invariant in the medication list. -/
theorem checkDrugInteractions_perm (tbl : List DrugInteractionRec)
    (cur : List CurrentMedication) {m m' : List (Option Medication)} (h : m.Perm m') :
    (checkDrugInteractions tbl m cur).Perm (checkDrugInteractions tbl m' cur) := by
  rw [checkDrugInteractions, checkDrugInteractions]
  refine List.Perm.append ?_ (h.flatMap_right _)
  have e1 := (filterMap_id_map
    (fun q : Option Medication × Option Medication =>
      (findInteraction tbl (idOf q.1) (idOf q.2)).map pairInteractionAlert)
    (pairsOf m)).symm
  have e2 := (filterMap_id_map
    (fun q : Option Medication × Option Medication =>
      (findInteraction tbl (idOf q.1) (idOf q.2)).map pairInteractionAlert)
    (pairsOf m')).symm
  rw [proposedPairAlerts_eq, proposedPairAlerts_eq, e1, e2]
  refine List.Perm.filterMap id (pairsOf_map_perm _ ?_ h)
  intro a b
  simp only
  rw [findInteraction_symm]

/-- The contraindication check is permutation-invariant. -/
theorem checkContraindications_perm (pc : PatientContext)
    {m m' : List (Option Medication)} (h : m.Perm m') :
    (checkContraindications pc m).Perm (checkContraindications pc m') := by
  rw [checkContraindications, checkContraindications]
  refine List.Perm.flatMap_left _ (fun cond _ => ?_)
  refine List.Perm.flatMap_left _ (fun entry _ => ?_)
  by_cases hc : jsIncludes (toLowerStr cond.diagnosisName) entry.1 = true
  · rw [if_pos hc, if_pos hc]
    exact h.filterMap _
  · rw [if_neg hc, if_neg hc]

/-- Membership in the class alerts of grouped medications, phrased through
per-key counts of the underlying list. -/
theorem mem_classDupAlerts_groupBy (l : List GroupedMed) (a : SafetyAlert) :
    a ∈ classDupAlerts (groupByTherapeuticClass l) ↔
      ∃ k, a = classDupAlert k ∧ 1 < l.countP (fun m => classKey m == k) := by
  constructor
  · intro hmem
    rcases (mem_classDupAlerts _ a).mp hmem with ⟨e, he, hl, rfl⟩
    refine ⟨e.1, rfl, ?_⟩
    have hfind := find?_key_of_nodup _ e he (groupBy_keys_nodup l)
    have : entryLen (groupByTherapeuticClass l) e.1 = e.2.length := by
      simp only [entryLen, hfind]
    rw [← entryLen_groupBy, this]
    exact hl
  · rintro ⟨k, rfl, hk⟩
    rw [← entryLen_groupBy] at hk
    exact (classDupAlert_mem_iff _ k (groupBy_keys_nodup l)).mpr hk

/-- The class-duplication alerts are permutation-invariant in the combined
grouped list. -/
theorem classDupAlerts_groupBy_perm {l l' : List GroupedMed} (h : l.Perm l') :
    (classDupAlerts (groupByTherapeuticClass l)).Perm
      (classDupAlerts (groupByTherapeuticClass l')) := by
  refine (List.perm_ext_iff_of_nodup
    (classDupAlerts_nodup _ (groupBy_keys_nodup l))
    (classDupAlerts_nodup _ (groupBy_keys_nodup l'))).mpr (fun a => ?_)
  rw [mem_classDupAlerts_groupBy, mem_classDupAlerts_groupBy]
  constructor
  · rintro ⟨k, rfl, hk⟩
    exact ⟨k, rfl, by rwa [h.countP_eq] at hk⟩
  · rintro ⟨k, rfl, hk⟩
    exact ⟨k, rfl, by rwa [← h.countP_eq] at hk⟩

/-- The duplicate-therapy check is permutation-invariant. -/
theorem checkDuplicateTherapy_perm (cur : List CurrentMedication)
    {m m' : List (Option Medication)} (h : m.Perm m') :
    (checkDuplicateTherapy m cur).Perm (checkDuplicateTherapy m' cur) := by
  rw [checkDuplicateTherapy, checkDuplicateTherapy]
  refine List.Perm.append (h.flatMap_right _) ?_
  exact classDupAlerts_groupBy_perm ((h.filterMap _).append (List.Perm.refl _))

/-- Zipping a list with a map of itself. -/
theorem zip_self_map {α β : Type} (l : List α) (g : α → β) :
    l.zip (l.map g) = l.map (fun a => (a, g a)) := by
  induction l with
  | nil => rfl
  | cons x xs ih => simp [ih]

/-- The dose-range check over the index-aligned pairs is permutation-invariant
in the proposed list. -/
theorem checkDoseRanges_perm (pc : PatientContext) (cat : Catalog)
    {p p' : List ProposedMedication} (h : p.Perm p') :
    (checkDoseRanges pc (p.zip (resolveProposed cat p))).Perm
      (checkDoseRanges pc (p'.zip (resolveProposed cat p'))) := by
  rw [checkDoseRanges, checkDoseRanges, resolveProposed, resolveProposed,
    zip_self_map, zip_self_map]
  exact (h.map _).flatMap_right _

/-- The organ-function check is permutation-invariant. -/
theorem checkOrganFunction_perm (pc : PatientContext)
    {m m' : List (Option Medication)} (h : m.Perm m') :
    (checkOrganFunction pc m).Perm (checkOrganFunction pc m') := by
  rw [checkOrganFunction, checkOrganFunction]
  refine List.Perm.append ?_ ?_
  · by_cases hc : (truthyOptNat pc.renalFunction && pc.renalFunction.getD 0 < 60) = true
    · rw [if_pos hc, if_pos hc]
      exact h.filterMap _
    · rw [if_neg hc, if_neg hc]
  · cases pc.hepaticFunction with
    | none => exact List.Perm.refl _
    | some hf =>
      by_cases hc : (hf == "Moderate" || hf == "Severe") = true
      · simp only [if_pos hc]
        exact h.filterMap _
      · simp only [if_neg hc]
        exact List.Perm.refl _

/-- The pregnancy/lactation check is permutation-invariant. -/
theorem checkPregnancyLactation_perm (pc : PatientContext)
    {m m' : List (Option Medication)} (h : m.Perm m') :
    (checkPregnancyLactation pc m).Perm (checkPregnancyLactation pc m') := by
  rw [checkPregnancyLactation, checkPregnancyLactation]
  refine List.Perm.append ?_ ?_
  · by_cases hc : pc.isPregnant = true
    · rw [if_pos hc, if_pos hc]
      exact h.filterMap _
    · rw [if_neg hc, if_neg hc]
  · by_cases hc : pc.isLactating = true
    · rw [if_pos hc, if_pos hc]
      exact h.filterMap _
    · rw [if_neg hc, if_neg hc]

/-- The age-specific check is permutation-invariant. -/
theorem checkAgeSpecific_perm (pc : PatientContext)
    {m m' : List (Option Medication)} (h : m.Perm m') :
    (checkAgeSpecific pc m).Perm (checkAgeSpecific pc m') := by
  rw [checkAgeSpecific, checkAgeSpecific]
  refine List.Perm.append ?_ ?_
  · by_cases hc : pc.age < 18
    · rw [if_pos hc, if_pos hc]
      exact h.filterMap _
    · rw [if_neg hc, if_neg hc]
  · by_cases hc : pc.age ≥ 65
    · rw [if_pos hc, if_pos hc]
      exact h.filterMap _
    · rw [if_neg hc, if_neg hc]

/-- C7: permuting the proposed medication list leaves the alert multiset of
`performSafetyCheck` unchanged; the pairwise interaction loop performs exactly
`C(N, 2)` lookups (one per visited pair, as `proposedPairAlerts` is the
lookup over `proposedPairQueries`); the lookup is symmetric; and over a
duplicate-free resolved list every unordered pair of distinct entries is
visited exactly once. -/
theorem C7_order_insensitivity_and_pairwise (pc : PatientContext) (cat : Catalog)
    (proposed proposed' : List ProposedMedication) (hperm : proposed.Perm proposed') :
    ((performSafetyCheck pc proposed cat).alerts).Perm
        ((performSafetyCheck pc proposed' cat).alerts) ∧
      (proposedPairQueries (resolveProposed cat proposed)).length
        = proposed.length.choose 2 ∧
      proposedPairAlerts cat.interactions (resolveProposed cat proposed)
        = (proposedPairQueries (resolveProposed cat proposed)).filterMap
            (fun q => (findInteraction cat.interactions (idOf q.1) (idOf q.2)).map
              pairInteractionAlert) ∧
      (∀ a b, findInteraction cat.interactions a b
        = findInteraction cat.interactions b a) ∧
      ((resolveProposed cat proposed).Nodup →
        ∀ x y, x ∈ resolveProposed cat proposed → y ∈ resolveProposed cat proposed →
          x ≠ y →
          (proposedPairQueries (resolveProposed cat proposed)).count (x, y)
            + (proposedPairQueries (resolveProposed cat proposed)).count (y, x)
            = 1) := by
  have hm : (resolveProposed cat proposed).Perm (resolveProposed cat proposed') :=
    hperm.map _
  refine ⟨?_, ?_, proposedPairAlerts_eq _ _, findInteraction_symm cat.interactions,
    fun hnd x y hx hy hxy => count_pairsOf_eq_one hnd hx hy hxy⟩
  · simp only [performSafetyCheck]
    exact ((((((((checkAllergies_perm pc hm).append
      (checkDrugInteractions_perm cat.interactions pc.currentMedications hm)).append
      (checkContraindications_perm pc hm)).append
      (checkDuplicateTherapy_perm pc.currentMedications hm)).append
      (checkDoseRanges_perm pc cat hperm)).append
      (checkOrganFunction_perm pc hm)).append
      (checkPregnancyLactation_perm pc hm)).append
      (checkAgeSpecific_perm pc hm))
  · rw [proposedPairQueries, length_pairsOf, resolveProposed, List.length_map]

/-- C7 witness: the full statement at a concrete two-element swap, together
with a fully evaluated exactly-once count for the concrete resolved pair. -/
theorem C7_order_insensitivity_and_pairwise_witness :
    (((performSafetyCheck patientPenAllergy [pmAmox, pmWarf]
          catalogInteraction).alerts).Perm
        ((performSafetyCheck patientPenAllergy [pmWarf, pmAmox]
          catalogInteraction).alerts) ∧
      (proposedPairQueries (resolveProposed catalogInteraction
          [pmAmox, pmWarf])).length = (List.length [pmAmox, pmWarf]).choose 2 ∧
      proposedPairAlerts catalogInteraction.interactions
          (resolveProposed catalogInteraction [pmAmox, pmWarf])
        = (proposedPairQueries (resolveProposed catalogInteraction
            [pmAmox, pmWarf])).filterMap
            (fun q => (findInteraction catalogInteraction.interactions (idOf q.1)
              (idOf q.2)).map pairInteractionAlert) ∧
      (∀ a b, findInteraction catalogInteraction.interactions a b
        = findInteraction catalogInteraction.interactions b a) ∧
      ((resolveProposed catalogInteraction [pmAmox, pmWarf]).Nodup →
        ∀ x y, x ∈ resolveProposed catalogInteraction [pmAmox, pmWarf] →
          y ∈ resolveProposed catalogInteraction [pmAmox, pmWarf] →
          x ≠ y →
          (proposedPairQueries (resolveProposed catalogInteraction
              [pmAmox, pmWarf])).count (x, y)
            + (proposedPairQueries (resolveProposed catalogInteraction
              [pmAmox, pmWarf])).count (y, x) = 1)) ∧
      (proposedPairQueries (resolveProposed catalogInteraction
          [pmAmox, pmWarf])).count (some amoxicillin, some warfarin)
        + (proposedPairQueries (resolveProposed catalogInteraction
            [pmAmox, pmWarf])).count (some warfarin, some amoxicillin) = 1 := by
  refine ⟨C7_order_insensitivity_and_pairwise patientPenAllergy catalogInteraction
    [pmAmox, pmWarf] [pmWarf, pmAmox] (List.Perm.swap pmWarf pmAmox []), ?_⟩
  decide

end Horalix
